import Mathlib

/-!
Verification of the churn-risk scoring and alert-consolidation engine of the
pharmacy-marketplace repository.  Each Python function relevant to the claims
is shallowly embedded as an executable Lean definition over lists of records;
monetary amounts and percentages are rationals, dates are integer day numbers,
week buckets are integer labels ordered like the source strings.
-/

namespace ChurnSpec

/-- Minimum of a list of integers with a default for the empty list
(models `pandas.Series.min` on a nonempty column). -/
def listMinD (d : Int) : List Int → Int
  | [] => d
  | x :: xs => xs.foldl min x

/-- Maximum of a list of integers with a default for the empty list
(models `pandas.Series.max` on a nonempty column). -/
def listMaxD (d : Int) : List Int → Int
  | [] => d
  | x :: xs => xs.foldl max x

/-- Minimum of a list of rationals with a default (models `Series.min`). -/
def listMinQD (d : ℚ) : List ℚ → ℚ
  | [] => d
  | x :: xs => xs.foldl min x

/-- Stable insertion step: `x` is placed before the first element `y` whose
key does not strictly precede it, so elements with equal keys keep their
original relative order.  `klt a b = true` means an element keyed `a` must
come strictly after an element keyed `b`. -/
def insertK {α κ : Type} (f : α → κ) (klt : κ → κ → Bool) (x : α) :
    List α → List α
  | [] => [x]
  | y :: ys => if klt (f x) (f y) then y :: insertK f klt x ys else x :: y :: ys

/-- Stable sort by key (models Python `list.sort(key=...)` / pandas
`sort_values`, both stable). -/
def sortK {α κ : Type} (f : α → κ) (klt : κ → κ → Bool) : List α → List α
  | [] => []
  | x :: xs => insertK f klt x (sortK f klt xs)

/-- ASCII lowercasing of a string, character by character (models Python
`str.lower()` on the ASCII labels used by the agent). -/
def strLower (s : String) : String := String.mk (s.data.map Char.toLower)

/-- Substring containment on character lists (models the Python operator
`needle in haystack` on strings). -/
def containsSub (needle : List Char) : List Char → Bool
  | [] => needle.isEmpty
  | c :: t => if needle.isPrefixOf (c :: t) then true else containsSub needle t

/-! ## Behavioral alert agent (`behavioral_alert_agent.py`)

`FeatureEngineer.build_alerts` turns trial entries into feature alerts with a
list of matched criterion labels; `ChurnScorer._heuristic_assessment` maps the
matched labels of one alert to a risk tier, score and confidence. -/

/-- `FeatureEngineer.MIN_TIME_LABEL`. -/
def MIN_TIME_LABEL : String := "Tiempo de ahorro mínimo (opera con 1 proveedor)"

/-- `FeatureEngineer.LOW_PLATFORM_USE_LABEL`. -/
def LOW_PLATFORM_USE_LABEL : String := "Bajo uso de plataforma (≤1 orden/semana)"

/-- `FeatureEngineer.RISKY_TREND_LABEL`. -/
def RISKY_TREND_LABEL : String := "Tendencia de compra riesgosa (inactive/risky)"

/-- One entry of the trial data (`TrialEntry` dataclass, the fields the
feature engineer reads). -/
structure TrialEntry where
  point_of_sale_id : Int
  platform_use : String
  time_saved : String
deriving Repr, DecidableEq

/-- One feature alert (`FeatureAlert` dataclass, the fields the scorer and the
claims read).  `purchase_trend` is stored already lowercased, as in
`build_alerts`. -/
structure FeatureAlert where
  point_of_sale_id : Int
  reasons : List String
  platform_use : String
  time_saved : String
  purchase_trend : String
deriving Repr, DecidableEq

/-- The reasons list assembled by `FeatureEngineer.build_alerts` for one trial
entry: one fixed label per matched criterion, in the source order.
`trendIndex` models the dictionary `trend_index`; `.get(pos, "")` is the
lookup with default. -/
def buildReasons (trendIndex : Int → Option String) (t : TrialEntry) :
    List String :=
  (if t.time_saved = "minimum" then [MIN_TIME_LABEL] else []) ++
  (if t.platform_use = "low" then [LOW_PLATFORM_USE_LABEL] else []) ++
  (if strLower ((trendIndex t.point_of_sale_id).getD "") ∈
      ["inactive", "risky"] then [RISKY_TREND_LABEL] else [])

/-- `FeatureEngineer.build_alerts`: a trial entry produces an alert only when
at least one criterion matched. -/
def build_alerts (trendIndex : Int → Option String) (trials : List TrialEntry) :
    List FeatureAlert :=
  trials.filterMap fun t =>
    let reasons := buildReasons trendIndex t
    if reasons = [] then none
    else some
      { point_of_sale_id := t.point_of_sale_id
        reasons := reasons
        platform_use := t.platform_use
        time_saved := t.time_saved
        purchase_trend := strLower ((trendIndex t.point_of_sale_id).getD "") }

/-- `RiskAssessment` dataclass (the scored fields). -/
structure RiskAssessment where
  point_of_sale_id : Int
  risk_level : String
  risk_score : ℚ
  confidence : ℚ
deriving Repr, DecidableEq

/-- The number of matched criteria counted by
`ChurnScorer._heuristic_assessment` from the reasons list. -/
def criteriaCount (a : FeatureAlert) : ℕ :=
  (if MIN_TIME_LABEL ∈ a.reasons then 1 else 0) +
  (if LOW_PLATFORM_USE_LABEL ∈ a.reasons then 1 else 0) +
  (if RISKY_TREND_LABEL ∈ a.reasons then 1 else 0)

/-- `ChurnScorer._heuristic_assessment`: the categorical step function of the
criteria count (`round(risk_score, 2)` is the identity on these values). -/
def heuristic_assessment (a : FeatureAlert) : RiskAssessment :=
  let c := criteriaCount a
  if c = 3 then
    ⟨a.point_of_sale_id, "extreme", 1, 95/100⟩
  else if c = 2 then
    ⟨a.point_of_sale_id, "urgent", 75/100, 85/100⟩
  else if c = 1 then
    ⟨a.point_of_sale_id, "moderate", 50/100, 70/100⟩
  else
    ⟨a.point_of_sale_id, "low", 25/100, 60/100⟩

/-- `ChurnScorer.score`. -/
def score (alerts : List FeatureAlert) : List RiskAssessment :=
  alerts.map heuristic_assessment

/-- The number of true criteria among the three churn criteria of one alert,
read off the alert fields (the spec's criterion set). -/
def trueCriteria (a : FeatureAlert) : ℕ :=
  (if a.time_saved = "minimum" then 1 else 0) +
  (if a.platform_use = "low" then 1 else 0) +
  (if a.purchase_trend ∈ ["inactive", "risky"] then 1 else 0)

/-- The exact score of the step function claimed in the spec. -/
def stepScore : ℕ → ℚ
  | 3 => 1
  | 2 => 75/100
  | 1 => 50/100
  | _ => 25/100

/-- The exact tier of the step function claimed in the spec. -/
def stepTier : ℕ → String
  | 3 => "extreme"
  | 2 => "urgent"
  | 1 => "moderate"
  | _ => "low"

/-- The exact confidence of the step function claimed in the spec. -/
def stepConfidence : ℕ → ℚ
  | 3 => 95/100
  | 2 => 85/100
  | 1 => 70/100
  | _ => 60/100

/-! ## Alert consolidation (`container/app.py`, `consolidate_all_alerts`)

The three detector outputs are merged into one record per POS, keyed by
`pos_id` in a dict that preserves insertion order, then sorted by
`(-alertas_criticas, -total_alertas)` with Python's stable sort. -/

/-- One alert produced by one of the three detectors, as consumed by the
consolidator (it reads only `pos_id` and `risk_level`). -/
structure SourceAlert where
  pos_id : Int
  risk_level : String
deriving Repr, DecidableEq

/-- `'CRITICO' in alert['risk_level']` (Python substring test). -/
def isCritico (a : SourceAlert) : Bool :=
  containsSub "CRITICO".toList a.risk_level.toList

/-- One consolidated record (`consolidated[pos_id]` dict). -/
structure ConsolidatedAlert where
  pos_id : Int
  alertas_criticas : ℕ
  total_alertas : ℕ
  alerta_proveedores : Option SourceAlert
  alerta_gasto : Option SourceAlert
  alerta_ordenes : Option SourceAlert
deriving Repr, DecidableEq

/-- The freshly initialised consolidated record for a POS. -/
def blankConsolidated (pos : Int) : ConsolidatedAlert :=
  ⟨pos, 0, 0, none, none, none⟩

/-- Update-or-insert on the insertion-ordered association list that models
the Python dict `consolidated`. -/
def applyUpd (f : ConsolidatedAlert → ConsolidatedAlert) (pos : Int) :
    List ConsolidatedAlert → List ConsolidatedAlert
  | [] => [f (blankConsolidated pos)]
  | c :: rest =>
    if c.pos_id = pos then f c :: rest else c :: applyUpd f pos rest

/-- Record one vendor-concentration alert on a consolidated record. -/
def provUpd (a : SourceAlert) (c : ConsolidatedAlert) : ConsolidatedAlert :=
  { c with
    alerta_proveedores := some a
    total_alertas := c.total_alertas + 1
    alertas_criticas := c.alertas_criticas + (if isCritico a then 1 else 0) }

/-- Record one spend alert on a consolidated record. -/
def gastoUpd (a : SourceAlert) (c : ConsolidatedAlert) : ConsolidatedAlert :=
  { c with
    alerta_gasto := some a
    total_alertas := c.total_alertas + 1
    alertas_criticas := c.alertas_criticas + (if isCritico a then 1 else 0) }

/-- Record one order alert on a consolidated record. -/
def ordenesUpd (a : SourceAlert) (c : ConsolidatedAlert) : ConsolidatedAlert :=
  { c with
    alerta_ordenes := some a
    total_alertas := c.total_alertas + 1
    alertas_criticas := c.alertas_criticas + (if isCritico a then 1 else 0) }

/-- One `for alert in ...` loop of `consolidate_all_alerts`. -/
def procSource (upd : SourceAlert → ConsolidatedAlert → ConsolidatedAlert)
    (st : List ConsolidatedAlert) (alerts : List SourceAlert) :
    List ConsolidatedAlert :=
  alerts.foldl (fun acc a => applyUpd (upd a) a.pos_id acc) st

/-- Strict descending-priority comparison on `(alertas_criticas,
total_alertas)`: `gravLt p q` means a record keyed `p` ranks strictly below
one keyed `q` (Python key `(-criticas, -total)` ascending). -/
def gravLt (p q : ℕ × ℕ) : Bool :=
  p.1 < q.1 || (p.1 = q.1 && p.2 < q.2)

/-- The ranking key of a consolidated record. -/
def gravKey (c : ConsolidatedAlert) : ℕ × ℕ :=
  (c.alertas_criticas, c.total_alertas)

/-- The dict-building phase of `consolidate_all_alerts`, before sorting. -/
def consolidateDict (v s o : List SourceAlert) : List ConsolidatedAlert :=
  procSource ordenesUpd (procSource gastoUpd (procSource provUpd [] v) s) o

/-- `consolidate_all_alerts`. -/
def consolidate_all_alerts (v s o : List SourceAlert) :
    List ConsolidatedAlert :=
  sortK gravKey gravLt (consolidateDict v s o)

/-- How many of the three sources report a CRITICAL-tier alert for `pos`
(the quantity the claim says `alertas_criticas` equals). -/
def critSources (v s o : List SourceAlert) (pos : Int) : ℕ :=
  (if (v.find? (fun a => a.pos_id == pos)).any isCritico then 1 else 0) +
  (if (s.find? (fun a => a.pos_id == pos)).any isCritico then 1 else 0) +
  (if (o.find? (fun a => a.pos_id == pos)).any isCritico then 1 else 0)

/-- How many of the three sources report any alert for `pos`. -/
def totalSources (v s o : List SourceAlert) (pos : Int) : ℕ :=
  (if (v.find? (fun a => a.pos_id == pos)).isSome then 1 else 0) +
  (if (s.find? (fun a => a.pos_id == pos)).isSome then 1 else 0) +
  (if (o.find? (fun a => a.pos_id == pos)).isSome then 1 else 0)

/-! ## Vendor concentration risk (`analyze_vendor_risk`, identical in
`container/app.py` and `churn_behavior.py`)

One row of the weekly distribution per (pos, vendor, week); `porcentaje` is
the vendor's share of that week's POS total.  Week buckets are totally
ordered labels; the source compares them with `min`/`max`/`==` only, so they
are embedded as integers. -/

/-- One row of `weekly_distribution`. -/
structure WeeklyRow where
  point_of_sale_id : Int
  vendor_id : Int
  week : Int
  porcentaje : ℚ
deriving Repr, DecidableEq

/-- `pos_data`: the rows of one POS. -/
def posWeekly (wd : List WeeklyRow) (pos : Int) : List WeeklyRow :=
  wd.filter (fun r => r.point_of_sale_id = pos)

/-- `first_week = pos_data['week'].min()`. -/
def firstWeek (wd : List WeeklyRow) (pos : Int) : Int :=
  listMinD 0 ((posWeekly wd pos).map (fun r => r.week))

/-- `last_week = pos_data['week'].max()`. -/
def lastWeek (wd : List WeeklyRow) (pos : Int) : Int :=
  listMaxD 0 ((posWeekly wd pos).map (fun r => r.week))

/-- `first_week_data`. -/
def firstWeekData (wd : List WeeklyRow) (pos : Int) : List WeeklyRow :=
  (posWeekly wd pos).filter (fun r => r.week = firstWeek wd pos)

/-- `last_week_data`. -/
def lastWeekData (wd : List WeeklyRow) (pos : Int) : List WeeklyRow :=
  (posWeekly wd pos).filter (fun r => r.week = lastWeek wd pos)

/-- `num_vendors_first = first_week_data['vendor_id'].nunique()`. -/
def numVendorsFirst (wd : List WeeklyRow) (pos : Int) : ℕ :=
  ((firstWeekData wd pos).map (fun r => r.vendor_id)).dedup.length

/-- `num_vendors_last = last_week_data['vendor_id'].nunique()`. -/
def numVendorsLast (wd : List WeeklyRow) (pos : Int) : ℕ :=
  ((lastWeekData wd pos).map (fun r => r.vendor_id)).dedup.length

/-- `last_week_vendors`: last-week rows sorted by share descending (stable,
as `sort_values` is). -/
def lastWeekVendors (wd : List WeeklyRow) (pos : Int) : List WeeklyRow :=
  sortK (fun r => r.porcentaje) (fun p q => decide (p < q)) (lastWeekData wd pos)

/-- `last_week_vendors.iloc[0]['porcentaje']` (0 when absent; the source only
reads it on the branches where the row exists). -/
def topPct (wd : List WeeklyRow) (pos : Int) : ℚ :=
  ((lastWeekVendors wd pos).map (fun r => r.porcentaje)).getD 0 0

/-- `last_week_vendors.iloc[1]['porcentaje']`. -/
def secondPct (wd : List WeeklyRow) (pos : Int) : ℚ :=
  ((lastWeekVendors wd pos).map (fun r => r.porcentaje)).getD 1 0

/-- The outcome record of `analyze_vendor_risk` (the fields the claims
read). -/
structure VendorRiskResult where
  pos_id : Int
  num_vendors_first : ℕ
  num_vendors_last : ℕ
  alert_type : Option String
  risk_level : String
  first_week : Int
  last_week : Int
deriving Repr, DecidableEq

/-- The `if/elif` chain of `analyze_vendor_risk`, producing
`(alert_type, risk_level)`. -/
def vendorAlertPair (wd : List WeeklyRow) (pos : Int) : Option String × String :=
  if numVendorsLast wd pos = 1 then
    (some "MONOPOLIO", "🔴 CRITICO")
  else if 3 ≤ numVendorsFirst wd pos ∧ numVendorsLast wd pos = 2 then
    (if topPct wd pos - secondPct wd pos > 50 then
      (some "CONCENTRACION", "🟠 ALTO")
    else (none, "🟢 BAJO"))
  else if numVendorsLast wd pos = 2 then
    (if topPct wd pos > 70 then (some "MONITOREAR", "🟡 MODERADO")
    else (none, "🟢 BAJO"))
  else (none, "🟢 BAJO")

/-- `analyze_vendor_risk` (the initial `weekly_distribution.empty` test is
subsumed by the emptiness test on the filtered POS rows). -/
def analyze_vendor_risk (wd : List WeeklyRow) (pos : Int) :
    Option VendorRiskResult :=
  if (posWeekly wd pos).isEmpty then none
  else some
    { pos_id := pos
      num_vendors_first := numVendorsFirst wd pos
      num_vendors_last := numVendorsLast wd pos
      alert_type := (vendorAlertPair wd pos).1
      risk_level := (vendorAlertPair wd pos).2
      first_week := firstWeek wd pos
      last_week := lastWeek wd pos }

/-! ## Spend and order trend detectors (`container/app.py`,
`analyze_spending_trends` / `analyze_orders_trends`)

Order dates are integer day numbers (`pd.Timedelta(days=k)` becomes `+ k`).
The current window is the trailing 7 days ending on the most recent date;
earlier transactions are cut into 7-day windows from the earliest historical
date. -/

/-- One transaction row of `df_orders`. -/
structure Txn where
  point_of_sale_id : Int
  order_date : Int
  total_compra : ℚ
deriving Repr, DecidableEq

/-- `pos_data`. -/
def posTxns (df : List Txn) (pos : Int) : List Txn :=
  df.filter (fun r => r.point_of_sale_id = pos)

/-- `max_date`. -/
def maxDate (rows : List Txn) : Int :=
  listMaxD 0 (rows.map (fun r => r.order_date))

/-- `last_7_days_start = max_date - 6 days`. -/
def last7Start (rows : List Txn) : Int := maxDate rows - 6

/-- `last_7_days_data`. -/
def last7Data (rows : List Txn) : List Txn :=
  rows.filter (fun r => last7Start rows ≤ r.order_date)

/-- `historical_data`. -/
def histData (rows : List Txn) : List Txn :=
  rows.filter (fun r => r.order_date < last7Start rows)

/-- `min_historical_date`. -/
def minHistDate (rows : List Txn) : Int :=
  listMinD 0 ((histData rows).map (fun r => r.order_date))

/-- The start dates visited by the `while current_date < last_7_days_start`
loop, stepping 7 days at a time. -/
def periodStarts (cur stop : Int) : List Int :=
  if cur < stop then cur :: periodStarts (cur + 7) stop else []
termination_by (stop - cur).toNat
decreasing_by omega

/-- The transactions of one 7-day window `[s, s+6]` of the historical data. -/
def windowTxns (rows : List Txn) (s : Int) : List Txn :=
  (histData rows).filter (fun r => s ≤ r.order_date ∧ r.order_date ≤ s + 6)

/-- The spend totals kept by `analyze_spending_trends`: one entry per 7-day
window that contains at least one transaction (`if not period_data.empty`). -/
def spendPeriodTotals (rows : List Txn) : List ℚ :=
  (periodStarts (minHistDate rows) (last7Start rows)).filterMap fun s =>
    let dat := windowTxns rows s
    if dat.isEmpty then none else some ((dat.map (fun r => r.total_compra)).sum)

/-- The order counts kept by `analyze_orders_trends`: one entry per 7-day
window, empty windows included (`periods.append` is unconditional there). -/
def orderPeriodCounts (rows : List Txn) : List ℕ :=
  (periodStarts (minHistDate rows) (last7Start rows)).map fun s =>
    (windowTxns rows s).length

/-- The outcome record shared by both trend detectors: `last_period_value` is
the spend sum or the order count of the current window. -/
structure TrendResult where
  pos_id : Int
  last_period_value : ℚ
  historical_average : ℚ
  decrease_percentage : ℚ
  alert_type : Option String
  risk_level : String
  total_periods : ℕ
deriving Repr, DecidableEq

/-- The shared alert chain of both trend detectors, parameterised by the
alert-type names of the variant. -/
def trendAlertPair (zeroName critName modName : String)
    (lastValue avg : ℚ) : Option String × String :=
  if lastValue = 0 then (some zeroName, "🔴 CRITICO")
  else if avg > 0 then
    (if (avg - lastValue) / avg * 100 ≥ 50 then (some critName, "🟠 ALTO")
    else if (avg - lastValue) / avg * 100 ≥ 30 then
      (some modName, "🟡 MODERADO")
    else (none, "🟢 NORMAL"))
  else (none, "🟢 NORMAL")

/-- `analyze_spending_trends`. -/
def analyze_spending_trends (df : List Txn) (pos : Int) : Option TrendResult :=
  let rows := posTxns df pos
  if rows.isEmpty then none
  else
    if (histData rows).isEmpty then none
    else
      let totals := spendPeriodTotals rows
      if totals.isEmpty then none
      else
        let avg := totals.sum / (totals.length : ℚ)
        let lastSpend := ((last7Data rows).map (fun r => r.total_compra)).sum
        let pair := trendAlertPair "GASTO_CERO" "DISMINUCION_CRITICA"
          "DISMINUCION_MODERADA" lastSpend avg
        some
          { pos_id := pos
            last_period_value := lastSpend
            historical_average := avg
            decrease_percentage :=
              if avg > 0 then (avg - lastSpend) / avg * 100 else 0
            alert_type := pair.1
            risk_level := pair.2
            total_periods := totals.length }

/-- `analyze_orders_trends`. -/
def analyze_orders_trends (df : List Txn) (pos : Int) : Option TrendResult :=
  let rows := posTxns df pos
  if rows.isEmpty then none
  else
    if (histData rows).isEmpty then none
    else
      let counts := orderPeriodCounts rows
      if counts.isEmpty then none
      else
        let avg := ((counts.map (fun n => (n : ℚ))).sum) / (counts.length : ℚ)
        let lastOrders := ((last7Data rows).length : ℚ)
        let pair := trendAlertPair "ORDENES_CERO" "ORDENES_DISMINUCION_CRITICA"
          "ORDENES_DISMINUCION_MODERADA" lastOrders avg
        some
          { pos_id := pos
            last_period_value := lastOrders
            historical_average := avg
            decrease_percentage :=
              if avg > 0 then (avg - lastOrders) / avg * 100 else 0
            alert_type := pair.1
            risk_level := pair.2
            total_periods := counts.length }

/-! ## Line classification (`app_scoring.py`, `agregar_columna_clasificacion`)

One (order_id, super_catalog_id) group at a time (the pandas `groupby` treats
groups independently).  A row's `vendor_id_y` is the catalog vendor of the
joined candidate (`none` models NaN, i.e. no vendor linkage), `vendor_id_x`
the purchasing vendor, `precio_vendedor` the vendor unit price (`none` models
an unparseable/missing price).  The embedded path is the one where the
`vendor_id_y` column exists (the joined frame of the claim's context). -/

/-- One row of a classification group. -/
structure ClasRow where
  vendor_id_x : Option Int
  vendor_id_y : Option Int
  precio_vendedor : Option ℚ
deriving Repr, DecidableEq

/-- Label constants of the classifier. -/
def DROG_LABEL : String := "Precio droguería minimo"

/-- `"Precio vendor minimo"`. -/
def MIN_LABEL : String := "Precio vendor minimo"

/-- `"Precio vendor no minimo"`. -/
def NOMIN_LABEL : String := "Precio vendor no minimo"

/-- The `drogueria_mask` computation of one group, as a Boolean per row:
rows with NaN `vendor_id_y`; failing any, rows whose `vendor_id_y` equals the
group's first `vendor_id_x` (when that is not NaN); failing any, rows with
NaN `precio_vendedor`; failing any, the first row. -/
def drogMask (g : List ClasRow) : List Bool :=
  let m1 := g.map (fun r => r.vendor_id_y.isNone)
  let actual := (g.headD ⟨none, none, none⟩).vendor_id_x
  let m2 :=
    if m1.any id then m1
    else match actual with
      | some v => g.map (fun r => r.vendor_id_y = some v)
      | none => m1
  let m3 := if m2.any id then m2 else g.map (fun r => r.precio_vendedor.isNone)
  if m3.any id then m3
  else match g with
    | [] => []
    | _ :: t => true :: t.map (fun _ => false)

/-- `agregar_columna_clasificacion` on one group: each row paired with its
final `clasificacion` value (`""` is the untouched initial value). -/
def clasificacionGroup (g : List ClasRow) : List (ClasRow × String) :=
  let pairs := g.zip (drogMask g)
  let vprices := (pairs.filter (fun p => !p.2)).filterMap
    (fun p => p.1.precio_vendedor)
  if vprices.isEmpty then
    pairs.map (fun p => (p.1, if p.2 then DROG_LABEL else ""))
  else
    let minP := listMinQD 0 vprices
    pairs.map fun p =>
      (p.1,
        if p.2 then DROG_LABEL
        else match p.1.precio_vendedor with
          | some q => if q = minP then MIN_LABEL else NOMIN_LABEL
          | none => NOMIN_LABEL)

/-! ## Savings analysis (`app_scoring.py`, `construir_analisis_productos`)

Vendor candidate rows are filtered to parseable vendor ids and positive total
prices, the sentinel vendor 1156 excluded; per (product, order) group the
first row attaining the minimum total price is the best vendor (`idxmin`);
it is inner-joined against the first baseline row of the same key
(`drop_duplicates(keep='first')`); only positive savings are kept. -/

/-- One vendor candidate row of `productos_con_vendors`. -/
structure VendorCandRow where
  super_catalog_id : Int
  order_id : Int
  vendor_id : Option Int
  precio_total_vendedor : Option ℚ
  precio_vendedor : Option ℚ
deriving Repr, DecidableEq

/-- One classified baseline row of `df_pos_clasificado`. -/
structure DrogRow where
  super_catalog_id : Int
  order_id : Int
  clasificacion : String
  valor_vendedor : ℚ
  precio_minimo : ℚ
  unidades_pedidas : ℚ
deriving Repr, DecidableEq

/-- The vendor-row filter of `construir_analisis_productos`. -/
def validVendorRow (r : VendorCandRow) : Bool :=
  r.vendor_id.isSome && r.precio_total_vendedor.isSome &&
    decide (0 < r.precio_total_vendedor.getD 0) && !(r.vendor_id == some 1156)

/-- `vendors_df` after filtering. -/
def vendorsFiltered (vs : List VendorCandRow) : List VendorCandRow :=
  vs.filter validVendorRow

/-- The (product, order) keys of the filtered vendor rows, first appearance
first. -/
def vendorKeys (vs : List VendorCandRow) : List (Int × Int) :=
  ((vendorsFiltered vs).map (fun r => (r.super_catalog_id, r.order_id))).dedup

/-- `idxmin`: the first row attaining the minimum of `f` (pandas `idxmin`
returns the first index of the minimum). -/
def firstMinBy {α : Type} (f : α → ℚ) : List α → Option α
  | [] => none
  | x :: xs =>
    match firstMinBy f xs with
    | none => some x
    | some y => if f x ≤ f y then some x else some y

/-- `best_vendors = vendors_df.loc[idx_min]`: one row per (product, order)
key. -/
def bestVendors (vs : List VendorCandRow) : List VendorCandRow :=
  (vendorKeys vs).filterMap fun k =>
    firstMinBy (fun r => r.precio_total_vendedor.getD 0)
      ((vendorsFiltered vs).filter
        (fun r => (r.super_catalog_id, r.order_id) = k))

/-- `number of options = vendor_counts` for one key. -/
def opcionesVendors (vs : List VendorCandRow) (k : Int × Int) : ℕ :=
  ((vendorsFiltered vs).filter
    (fun r => (r.super_catalog_id, r.order_id) = k)).length

/-- The baseline rows: classification filter, then
`drop_duplicates(subset=key, keep='first')` realised as `find?` on the
original order. -/
def drogLookup (ds : List DrogRow) (k : Int × Int) : Option DrogRow :=
  (ds.filter (fun d => d.clasificacion = DROG_LABEL)).find?
    (fun d => (d.super_catalog_id, d.order_id) == k)

/-- One record of the final savings table (the fields the claim reads). -/
structure SavingsRecord where
  producto_id : Int
  orden_id : Int
  opciones_vendors : ℕ
  precio_total_drogueria : ℚ
  precio_total_mejor_vendor : ℚ
  ahorro : ℚ
  porcentaje_ahorro : ℚ
  tipo_ahorro : String
deriving Repr, DecidableEq

/-- `pd.cut(..., bins=[-inf, 10, 20, inf], labels=['Bajo','Medio','Alto'])`. -/
def tipoAhorroOf (pct : ℚ) : String :=
  if pct ≤ 10 then "Bajo" else if pct ≤ 20 then "Medio" else "Alto"

/-- `construir_analisis_productos`: join, savings filter, percentage, tier,
final sort by savings descending. -/
def construir_analisis_productos (vs : List VendorCandRow) (ds : List DrogRow) :
    List SavingsRecord :=
  let merged := (bestVendors vs).filterMap fun v =>
    (drogLookup ds (v.super_catalog_id, v.order_id)).map (fun d => (v, d))
  let recs := merged.filterMap fun p =>
    let ahorro := p.2.valor_vendedor - p.1.precio_total_vendedor.getD 0
    if 0 < ahorro then
      let pct := if 0 < p.2.valor_vendedor then
        ahorro / p.2.valor_vendedor * 100 else 0
      some
        { producto_id := p.1.super_catalog_id
          orden_id := p.1.order_id
          opciones_vendors :=
            opcionesVendors vs (p.1.super_catalog_id, p.1.order_id)
          precio_total_drogueria := p.2.valor_vendedor
          precio_total_mejor_vendor := p.1.precio_total_vendedor.getD 0
          ahorro := ahorro
          porcentaje_ahorro := pct
          tipo_ahorro := tipoAhorroOf pct }
    else none
  sortK (fun r => r.ahorro) (fun p q => decide (p < q)) recs

/-! ## Owner grouping (`behavioral_alert_agent.py`, `OwnerGrouper`)

POS-level assessments are grouped by the owner of the POS; a POS whose lookup
yields no owner — Python `if owner_id:` also rejects the empty string — is
dropped.  Groups keep dict insertion order; the final list is sorted by
`avg_risk_score` descending with Python's stable sort. -/

/-- Half-even rounding to two decimals (Python `round(x, 2)` on the exactly
representable quarter-valued scores used here). -/
def round2 (q : ℚ) : ℚ :=
  let scaled := q * 100
  let f : ℤ := ⌊scaled⌋
  let frac := scaled - (f : ℚ)
  let n : ℤ :=
    if frac < 1/2 then f
    else if 1/2 < frac then f + 1
    else if f % 2 = 0 then f else f + 1
  (n : ℚ) / 100

/-- One owner-level assessment (`OwnerRiskAssessment`, the fields the claim
reads). -/
structure OwnerRiskAssessment where
  owner_id : String
  pos_count : ℕ
  high_risk_pos : List Int
  moderate_risk_pos : List Int
  low_risk_pos : List Int
  avg_risk_score : ℚ
  individual_assessments : List RiskAssessment
deriving Repr, DecidableEq

/-- Append an assessment to its owner's group in the insertion-ordered
association list modelling the dict `owner_groups`. -/
def addToGroup (o : String) (a : RiskAssessment) :
    List (String × List RiskAssessment) → List (String × List RiskAssessment)
  | [] => [(o, [a])]
  | (k, l) :: rest =>
    if k = o then (k, l ++ [a]) :: rest else (k, l) :: addToGroup o a rest

/-- The grouping loop of `OwnerGrouper.group_by_owner`; `posOwnerMap` models
`pos_owner_map.get`, and `some ""` is rejected like `None` by the Python
truthiness test. -/
def groupByOwner (posOwnerMap : Int → Option String)
    (assessments : List RiskAssessment) :
    List (String × List RiskAssessment) :=
  assessments.foldl
    (fun acc a =>
      match posOwnerMap a.point_of_sale_id with
      | some o => if o = "" then acc else addToGroup o a acc
      | none => acc) []

/-- `OwnerGrouper._create_owner_assessment` (name/email/summary/action fields
are presentation and omitted). -/
def createOwnerAssessment (o : String) (as : List RiskAssessment) :
    OwnerRiskAssessment :=
  let extreme := (as.filter (fun a => strLower a.risk_level = "extreme")).map
    (fun a => a.point_of_sale_id)
  let urgent := (as.filter (fun a => strLower a.risk_level = "urgent")).map
    (fun a => a.point_of_sale_id)
  let moderate := (as.filter (fun a => strLower a.risk_level = "moderate")).map
    (fun a => a.point_of_sale_id)
  let low := (as.filter (fun a =>
    strLower a.risk_level ≠ "extreme" ∧ strLower a.risk_level ≠ "urgent" ∧
      strLower a.risk_level ≠ "moderate")).map (fun a => a.point_of_sale_id)
  { owner_id := o
    pos_count := as.length
    high_risk_pos := extreme ++ urgent
    moderate_risk_pos := moderate
    low_risk_pos := low
    avg_risk_score :=
      round2 ((as.map (fun a => a.risk_score)).sum / (as.length : ℚ))
    individual_assessments := as }

/-- `OwnerGrouper.group_by_owner`. -/
def group_by_owner (posOwnerMap : Int → Option String)
    (assessments : List RiskAssessment) : List OwnerRiskAssessment :=
  sortK (fun oa => oa.avg_risk_score) (fun p q => decide (p < q))
    (((groupByOwner posOwnerMap assessments)).map
      (fun g => createOwnerAssessment g.1 g.2))

/-! ## Week bucketing (`churn_agent.py`, `get_week_number`)

The source formats a date as `f"{year}-W{week:02d}"` where `year` is the
calendar year attribute of the timestamp and `week` is
`isocalendar().week`.  The Gregorian calendar arithmetic below supplies the
ISO week computation. -/

/-- A Gregorian calendar date. -/
structure Date where
  year : Int
  month : ℕ
  day : ℕ
deriving Repr, DecidableEq

/-- Gregorian leap-year test. -/
def isLeap (y : Int) : Bool :=
  (y % 4 = 0 && y % 100 ≠ 0) || y % 400 = 0

/-- Days in each month. -/
def daysInMonth (y : Int) (m : ℕ) : ℕ :=
  if m = 2 then (if isLeap y then 29 else 28)
  else if m = 4 ∨ m = 6 ∨ m = 9 ∨ m = 11 then 30 else 31

/-- A valid calendar date (year ≥ 1, proleptic Gregorian). -/
def validDate (d : Date) : Prop :=
  1 ≤ d.year ∧ 1 ≤ d.month ∧ d.month ≤ 12 ∧ 1 ≤ d.day ∧
    d.day ≤ daysInMonth d.year d.month

/-- Day-of-year (1 = January 1st). -/
def dayOfYear (d : Date) : ℕ :=
  ((List.range d.month).filter (fun m => 1 ≤ m ∧ m < d.month)).foldl
    (fun acc m => acc + daysInMonth d.year m) d.day

/-- Days in the years strictly before `y` (proleptic Gregorian, year 1 is the
first year). -/
def daysBeforeYear (y : Int) : Int :=
  365 * (y - 1) + (y - 1) / 4 - (y - 1) / 100 + (y - 1) / 400

/-- Ordinal day number: 0001-01-01 is day 1 (the convention of
`datetime.date.toordinal`). -/
def ordinal (d : Date) : Int := daysBeforeYear d.year + dayOfYear d

/-- ISO weekday, Monday = 1 … Sunday = 7 (0001-01-01 was a Monday in the
proleptic Gregorian calendar). -/
def isoWeekday (d : Date) : Int := (ordinal d - 1) % 7 + 1

/-- Modelled from the spec: the ISO-8601 week-numbering rule used by
`Timestamp.isocalendar()` (the pandas implementation is not part of this
repository).  A year is "long" (53 ISO weeks) when it starts on a Thursday,
or on a Wednesday in a leap year. -/
def isoLongYear (y : Int) : Bool :=
  isoWeekday ⟨y, 1, 1⟩ = 4 || (isLeap y && isoWeekday ⟨y, 1, 1⟩ = 3)

/-- Modelled from the spec: the (ISO year, ISO week number) pair of
`isocalendar()`. -/
def isoYearWeek (d : Date) : Int × Int :=
  let w : Int := ((dayOfYear d : Int) - isoWeekday d + 10) / 7
  if w < 1 then (d.year - 1, if isoLongYear (d.year - 1) then 53 else 52)
  else if w = 53 ∧ ¬ isoLongYear d.year then (d.year + 1, 1)
  else (d.year, w)

/-- Two-digit zero-padded rendering of the week number. -/
def weekPad (w : Int) : String :=
  if w < 10 then "0" ++ toString w else toString w

/-- Render the `"YYYY-Www"` bucket label from a year and a week number. -/
def weekLabel (y w : Int) : String := toString y ++ "-W" ++ weekPad w

/-- `get_week_number`: the calendar year of the date together with its ISO
week number. -/
def get_week_number (d : Date) : String :=
  weekLabel d.year (isoYearWeek d).2

/-- Modelled from the spec: the full ISO week label, using the ISO year (what
the claim says the bucket equals). -/
def isoWeekLabel (d : Date) : String :=
  weekLabel (isoYearWeek d).1 (isoYearWeek d).2

/-! ## Concrete inputs used by witnesses and counterexamples -/

/-- A trend table mapping every POS to `"risky"`. -/
def trendIndexEx : Int → Option String := fun _ => some "risky"

/-- One trial entry matching all three criteria under `trendIndexEx`. -/
def trialsEx : List TrialEntry := [⟨1, "low", "minimum"⟩]

/-- The alert `build_alerts trendIndexEx trialsEx` produces. -/
def alertEx : FeatureAlert :=
  { point_of_sale_id := 1
    reasons := [MIN_TIME_LABEL, LOW_PLATFORM_USE_LABEL, RISKY_TREND_LABEL]
    platform_use := "low"
    time_saved := "minimum"
    purchase_trend := "risky" }

/-- Vendor alerts: POS 1 and 2 critical, POS 3 moderate. -/
def exV : List SourceAlert :=
  [⟨1, "🔴 CRITICO"⟩, ⟨2, "🔴 CRITICO"⟩, ⟨3, "🟡 MODERADO"⟩]

/-- Spend alerts: POS 1 critical, POS 2 high. -/
def exS : List SourceAlert := [⟨1, "🔴 CRITICO"⟩, ⟨2, "🟠 ALTO"⟩]

/-- Order alerts: POS 2 normal. -/
def exO : List SourceAlert := [⟨2, "🟢 NORMAL"⟩]

/-- Weekly distribution where POS 1 goes from 3 vendors to 2 vendors with
shares 72% and 28% (gap 44 ≤ 50, leading share 72 > 70). -/
def cexMonitorWd : List WeeklyRow :=
  [⟨1, 10, 0, 40⟩, ⟨1, 11, 0, 35⟩, ⟨1, 12, 0, 25⟩,
   ⟨1, 10, 1, 72⟩, ⟨1, 11, 1, 28⟩]

/-- Weekly distribution where POS 1 goes from 2 vendors to 2 vendors with
shares 80% and 20%. -/
def monWitnessWd : List WeeklyRow :=
  [⟨1, 10, 0, 60⟩, ⟨1, 11, 0, 40⟩, ⟨1, 10, 1, 80⟩, ⟨1, 11, 1, 20⟩]

/-- Weekly distribution with a single observed week for POS 1 and a single
vendor in it. -/
def monoWd : List WeeklyRow := [⟨1, 10, 5, 100⟩]

/-- POS 1 spends 1000 in each of four prior 7-day windows and 450 in the
current window (a 55% decrease). -/
def spendDf : List Txn :=
  [⟨1, 0, 1000⟩, ⟨1, 7, 1000⟩, ⟨1, 14, 1000⟩, ⟨1, 21, 1000⟩, ⟨1, 34, 450⟩]

/-- The assessment `analyze_spending_trends spendDf 1` produces. -/
def spendRes : TrendResult :=
  { pos_id := 1
    last_period_value := 450
    historical_average := 1000
    decrease_percentage := 55
    alert_type := some "DISMINUCION_CRITICA"
    risk_level := "🟠 ALTO"
    total_periods := 4 }

/-- POS 1 with one transaction on day 0 and one on day 20: the historical
window `[7, 13]` is empty, so the spend detector drops it while the order
detector keeps it. -/
def trendGapDf : List Txn := [⟨1, 0, 10⟩, ⟨1, 20, 5⟩]

/-- POS 1 with transactions on days 0, 7 and 15: every historical window
contains a transaction. -/
def trendAlignedDf : List Txn := [⟨1, 0, 10⟩, ⟨1, 7, 20⟩, ⟨1, 15, 5⟩]

/-- A classification group with a baseline row and two vendor rows tied at
the minimum price 5. -/
def tieGroup : List ClasRow :=
  [⟨some 1, none, none⟩, ⟨some 1, some 2, some 5⟩, ⟨some 1, some 3, some 5⟩]

/-- A classification group with a baseline row and two vendor rows at prices
4 and 7. -/
def classifyGroup : List ClasRow :=
  [⟨some 1, none, none⟩, ⟨some 1, some 2, some 4⟩, ⟨some 1, some 3, some 7⟩]

/-- Two vendor candidates for (product 100, order 200) at total prices 80 and
90. -/
def savVendors : List VendorCandRow :=
  [⟨100, 200, some 2, some 80, some 8⟩, ⟨100, 200, some 3, some 90, some 9⟩]

/-- The classified baseline row for (product 100, order 200), total 100. -/
def savDrogs : List DrogRow := [⟨100, 200, DROG_LABEL, 100, 10, 10⟩]

/-- The savings record `construir_analisis_productos savVendors savDrogs`
emits. -/
def savRec : SavingsRecord :=
  { producto_id := 100
    orden_id := 200
    opciones_vendors := 2
    precio_total_drogueria := 100
    precio_total_mejor_vendor := 80
    ahorro := 20
    porcentaje_ahorro := 20
    tipo_ahorro := "Medio" }

/-- An owner lookup mapping every POS to owner `"o1"`. -/
def ownerMapEx : Int → Option String := fun _ => some "o1"

/-- Three assessments whose scores average to `5/12`, which is not
representable in two decimals. -/
def ownerAssessEx : List RiskAssessment :=
  [⟨1, "moderate", 1/2, 7/10⟩, ⟨2, "moderate", 1/2, 7/10⟩,
   ⟨3, "low", 1/4, 6/10⟩]

/-! ## Generic lemmas: folded minima and maxima -/

theorem foldl_min_le_init {α : Type} [LinearOrder α] (l : List α) (a : α) :
    l.foldl min a ≤ a := by
  induction l generalizing a with
  | nil => simp
  | cons x xs ih =>
    simpa using le_trans (ih (min a x)) (min_le_left a x)

theorem foldl_min_le_mem {α : Type} [LinearOrder α] (l : List α) (a x : α)
    (hx : x ∈ l) : l.foldl min a ≤ x := by
  induction l generalizing a with
  | nil => cases hx
  | cons y ys ih =>
    rcases List.mem_cons.mp hx with h | h
    · subst h
      exact le_trans (foldl_min_le_init ys (min a x)) (min_le_right a x)
    · exact ih (min a y) h

theorem foldl_min_mem {α : Type} [LinearOrder α] (l : List α) (a : α) :
    l.foldl min a ∈ a :: l := by
  induction l generalizing a with
  | nil => simp
  | cons x xs ih =>
    have h := ih (min a x)
    rcases List.mem_cons.mp h with h | h
    · rcases min_choice a x with hc | hc <;> rw [List.foldl_cons, h, hc] <;> simp
    · simp [List.foldl_cons, List.mem_cons.mpr (Or.inr (List.mem_cons.mpr (Or.inr h)))]

theorem foldl_max_init_le {α : Type} [LinearOrder α] (l : List α) (a : α) :
    a ≤ l.foldl max a := by
  induction l generalizing a with
  | nil => simp
  | cons x xs ih =>
    simpa using le_trans (le_max_left a x) (ih (max a x))

theorem foldl_max_mem_le {α : Type} [LinearOrder α] (l : List α) (a x : α)
    (hx : x ∈ l) : x ≤ l.foldl max a := by
  induction l generalizing a with
  | nil => cases hx
  | cons y ys ih =>
    rcases List.mem_cons.mp hx with h | h
    · subst h
      exact le_trans (le_max_right a x) (foldl_max_init_le ys (max a x))
    · exact ih (max a y) h

theorem foldl_max_mem {α : Type} [LinearOrder α] (l : List α) (a : α) :
    l.foldl max a ∈ a :: l := by
  induction l generalizing a with
  | nil => simp
  | cons x xs ih =>
    have h := ih (max a x)
    rcases List.mem_cons.mp h with h | h
    · rcases max_choice a x with hc | hc <;> rw [List.foldl_cons, h, hc] <;> simp
    · simp [List.foldl_cons, List.mem_cons.mpr (Or.inr (List.mem_cons.mpr (Or.inr h)))]

theorem listMinD_mem (d : Int) (l : List Int) (h : l ≠ []) :
    listMinD d l ∈ l := by
  match l with
  | [] => exact absurd rfl h
  | x :: xs =>
    have := foldl_min_mem xs x
    simpa [listMinD] using this

theorem listMinD_le (d : Int) (l : List Int) (x : Int) (hx : x ∈ l) :
    listMinD d l ≤ x := by
  match l with
  | [] => cases hx
  | y :: ys =>
    rcases List.mem_cons.mp hx with h | h
    · subst h
      exact foldl_min_le_init ys x
    · exact foldl_min_le_mem ys y x h

theorem listMaxD_mem (d : Int) (l : List Int) (h : l ≠ []) :
    listMaxD d l ∈ l := by
  match l with
  | [] => exact absurd rfl h
  | x :: xs =>
    have := foldl_max_mem xs x
    simpa [listMaxD] using this

theorem le_listMaxD (d : Int) (l : List Int) (x : Int) (hx : x ∈ l) :
    x ≤ listMaxD d l := by
  match l with
  | [] => cases hx
  | y :: ys =>
    rcases List.mem_cons.mp hx with h | h
    · subst h
      exact foldl_max_init_le ys x
    · exact foldl_max_mem_le ys y x h

theorem listMinQD_le (d : ℚ) (l : List ℚ) (x : ℚ) (hx : x ∈ l) :
    listMinQD d l ≤ x := by
  match l with
  | [] => cases hx
  | y :: ys =>
    rcases List.mem_cons.mp hx with h | h
    · subst h
      exact foldl_min_le_init ys x
    · exact foldl_min_le_mem ys y x h

theorem listMinQD_mem (d : ℚ) (l : List ℚ) (h : l ≠ []) :
    listMinQD d l ∈ l := by
  match l with
  | [] => exact absurd rfl h
  | x :: xs =>
    have := foldl_min_mem xs x
    simpa [listMinQD] using this

/-! ## Generic lemmas: the stable sort `sortK` -/

theorem insertK_perm {α κ : Type} (f : α → κ) (klt : κ → κ → Bool) (x : α)
    (l : List α) : (insertK f klt x l).Perm (x :: l) := by
  induction l with
  | nil => simp [insertK]
  | cons y ys ih =>
    by_cases h : klt (f x) (f y)
    · simp only [insertK, if_pos h]
      exact ((ih.cons y).trans (List.Perm.swap x y ys))
    · simp [insertK, if_neg h]

theorem sortK_perm {α κ : Type} (f : α → κ) (klt : κ → κ → Bool)
    (l : List α) : (sortK f klt l).Perm l := by
  induction l with
  | nil => simp [sortK]
  | cons x xs ih =>
    exact (insertK_perm f klt x (sortK f klt xs)).trans (ih.cons x)

theorem insertK_pairwise {α κ : Type} (f : α → κ) (klt : κ → κ → Bool)
    (hasymm : ∀ a b, klt a b = true → klt b a = false)
    (htrans : ∀ a b c, klt a b = false → klt b c = false → klt a c = false)
    (x : α) (l : List α)
    (hl : l.Pairwise (fun a b => klt (f a) (f b) = false)) :
    (insertK f klt x l).Pairwise (fun a b => klt (f a) (f b) = false) := by
  induction l with
  | nil => simp [insertK]
  | cons y ys ih =>
    rcases List.pairwise_cons.mp hl with ⟨hy, hys⟩
    by_cases h : klt (f x) (f y)
    · simp only [insertK, if_pos h]
      refine List.pairwise_cons.mpr ⟨?_, ih hys⟩
      intro z hz
      rcases List.mem_cons.mp ((insertK_perm f klt x ys).mem_iff.mp hz) with
        hz' | hz'
      · rw [hz']
        exact hasymm _ _ h
      · exact hy z hz'
    · simp only [insertK, if_neg h]
      refine List.pairwise_cons.mpr ⟨?_, hl⟩
      intro z hz
      rcases List.mem_cons.mp hz with hz' | hz'
      · rw [hz']
        exact Bool.eq_false_iff.mpr h
      · exact htrans _ _ _ (Bool.eq_false_iff.mpr h) (hy z hz')

theorem sortK_pairwise {α κ : Type} (f : α → κ) (klt : κ → κ → Bool)
    (hasymm : ∀ a b, klt a b = true → klt b a = false)
    (htrans : ∀ a b c, klt a b = false → klt b c = false → klt a c = false)
    (l : List α) :
    (sortK f klt l).Pairwise (fun a b => klt (f a) (f b) = false) := by
  induction l with
  | nil => simp [sortK]
  | cons x xs ih => exact insertK_pairwise f klt hasymm htrans x _ ih

theorem insertK_filter {α κ : Type} (f : α → κ) (klt : κ → κ → Bool)
    (p : α → Bool)
    (hp : ∀ a b, p a = true → p b = true → klt (f a) (f b) = false)
    (x : α) (l : List α) :
    (insertK f klt x l).filter p =
      if p x then x :: l.filter p else l.filter p := by
  induction l with
  | nil => by_cases h : p x <;> simp [insertK, List.filter, h]
  | cons y ys ih =>
    by_cases h : klt (f x) (f y)
    · simp only [insertK, if_pos h]
      by_cases hx : p x
      · have hyf : p y = false := by
          cases hyv : p y
          · rfl
          · rw [hp x y hx hyv] at h
            exact absurd h (by simp)
        simp [List.filter_cons, hyf, ih, hx]
      · simp [List.filter_cons, ih, hx]
    · simp only [insertK, if_neg h]
      by_cases hx : p x <;> simp [List.filter_cons, hx]

theorem sortK_filter {α κ : Type} (f : α → κ) (klt : κ → κ → Bool)
    (p : α → Bool)
    (hp : ∀ a b, p a = true → p b = true → klt (f a) (f b) = false)
    (l : List α) : (sortK f klt l).filter p = l.filter p := by
  induction l with
  | nil => simp [sortK]
  | cons x xs ih =>
    rw [sortK, insertK_filter f klt p hp, ih]
    by_cases hx : p x <;> simp [List.filter_cons, hx]

/-! ## Lemmas about the consolidation dict -/

theorem applyUpd_pos_id (uf : ConsolidatedAlert → ConsolidatedAlert)
    (hf : ∀ c, (uf c).pos_id = c.pos_id) (pos : Int)
    (l : List ConsolidatedAlert) :
    (applyUpd uf pos l).map (fun c => c.pos_id) =
      if pos ∈ l.map (fun c => c.pos_id) then l.map (fun c => c.pos_id)
      else l.map (fun c => c.pos_id) ++ [pos] := by
  induction l with
  | nil => simp [applyUpd, hf, blankConsolidated]
  | cons c rest ih =>
    by_cases hc : c.pos_id = pos
    · simp [applyUpd, hc, hf]
    · simp only [applyUpd, if_neg hc, List.map_cons, ih]
      have hiff : (pos ∈ c.pos_id :: rest.map (fun c => c.pos_id)) ↔
          (pos ∈ rest.map (fun c => c.pos_id)) := by
        constructor
        · intro h
          rcases List.mem_cons.mp h with h | h
          · exact absurd h.symm hc
          · exact h
        · exact fun h => List.mem_cons_of_mem _ h
      by_cases hm : pos ∈ rest.map (fun c => c.pos_id) <;>
        simp [hm, hiff]

theorem find?_applyUpd_self (uf : ConsolidatedAlert → ConsolidatedAlert)
    (hf : ∀ c, (uf c).pos_id = c.pos_id) (pos : Int)
    (l : List ConsolidatedAlert) :
    (applyUpd uf pos l).find? (fun c => c.pos_id == pos) =
      some (uf (((l.find? (fun c => c.pos_id == pos))).getD
        (blankConsolidated pos))) := by
  induction l with
  | nil =>
    rw [show applyUpd uf pos [] = [uf (blankConsolidated pos)] from rfl,
      List.find?_cons_of_pos _ (by simp [hf, blankConsolidated])]
    simp [List.find?]
  | cons c rest ih =>
    by_cases hc : c.pos_id = pos
    · rw [show applyUpd uf pos (c :: rest) = uf c :: rest from by
        simp [applyUpd, hc],
        List.find?_cons_of_pos _ (by simp [hf, hc]),
        List.find?_cons_of_pos _ (by simp [hc])]
      simp
    · rw [show applyUpd uf pos (c :: rest) = c :: applyUpd uf pos rest from by
        simp [applyUpd, hc],
        List.find?_cons_of_neg _ (by simp [hc]),
        List.find?_cons_of_neg _ (by simp [hc]), ih]

theorem find?_applyUpd_other (uf : ConsolidatedAlert → ConsolidatedAlert)
    (hf : ∀ c, (uf c).pos_id = c.pos_id) (pos q : Int) (hq : q ≠ pos)
    (l : List ConsolidatedAlert) :
    (applyUpd uf pos l).find? (fun c => c.pos_id == q) =
      l.find? (fun c => c.pos_id == q) := by
  induction l with
  | nil =>
    rw [show applyUpd uf pos [] = [uf (blankConsolidated pos)] from rfl,
      List.find?_cons_of_neg _ (by
        simp [hf, blankConsolidated]
        exact fun h => hq h.symm)]
  | cons c rest ih =>
    by_cases hc : c.pos_id = pos
    · have hne : ¬ c.pos_id = q := by
        rw [hc]
        exact fun h => hq h.symm
      rw [show applyUpd uf pos (c :: rest) = uf c :: rest from by
        simp [applyUpd, hc],
        List.find?_cons_of_neg _ (by simp [hf, hne]),
        List.find?_cons_of_neg _ (by simp [hne])]
    · by_cases hcq : c.pos_id = q
      · rw [show applyUpd uf pos (c :: rest) = c :: applyUpd uf pos rest from by
          simp [applyUpd, hc],
          List.find?_cons_of_pos _ (by simp [hcq]),
          List.find?_cons_of_pos _ (by simp [hcq])]
      · rw [show applyUpd uf pos (c :: rest) = c :: applyUpd uf pos rest from by
          simp [applyUpd, hc],
          List.find?_cons_of_neg _ (by simp [hcq]),
          List.find?_cons_of_neg _ (by simp [hcq]), ih]

theorem find?_procSource_absent
    (upd : SourceAlert → ConsolidatedAlert → ConsolidatedAlert)
    (hf : ∀ a c, (upd a c).pos_id = c.pos_id) (q : Int)
    (alerts : List SourceAlert) (st : List ConsolidatedAlert)
    (h : ∀ a ∈ alerts, a.pos_id ≠ q) :
    (procSource upd st alerts).find? (fun c => c.pos_id == q) =
      st.find? (fun c => c.pos_id == q) := by
  induction alerts generalizing st with
  | nil => simp [procSource]
  | cons a rest ih =>
    have ha : a.pos_id ≠ q := h a (List.mem_cons_self a rest)
    have hrest : ∀ b ∈ rest, b.pos_id ≠ q := fun b hb =>
      h b (List.mem_cons_of_mem a hb)
    show (procSource upd (applyUpd (upd a) a.pos_id st) rest).find? _ = _
    rw [ih _ hrest, find?_applyUpd_other (upd a) (hf a) a.pos_id q
      (fun hc => ha hc.symm)]

theorem find?_procSource
    (upd : SourceAlert → ConsolidatedAlert → ConsolidatedAlert)
    (hf : ∀ a c, (upd a c).pos_id = c.pos_id) (q : Int)
    (alerts : List SourceAlert) (st : List ConsolidatedAlert)
    (hnd : (alerts.map (fun a => a.pos_id)).Nodup) :
    (procSource upd st alerts).find? (fun c => c.pos_id == q) =
      match alerts.find? (fun a => a.pos_id == q) with
      | some a => some (upd a ((st.find? (fun c => c.pos_id == q)).getD
          (blankConsolidated q)))
      | none => st.find? (fun c => c.pos_id == q) := by
  induction alerts generalizing st with
  | nil => simp [procSource, List.find?]
  | cons a rest ih =>
    rw [List.map_cons] at hnd
    rcases List.nodup_cons.mp hnd with ⟨hnotin, hndrest⟩
    by_cases ha : a.pos_id = q
    · have hrest : ∀ b ∈ rest, b.pos_id ≠ q := by
        intro b hb hbq
        have hmem : b.pos_id ∈ rest.map (fun x => x.pos_id) :=
          List.mem_map_of_mem (fun x => x.pos_id) hb
        rw [hbq, ← ha] at hmem
        exact hnotin hmem
      show (procSource upd (applyUpd (upd a) a.pos_id st) rest).find? _ = _
      rw [find?_procSource_absent upd hf q rest _ hrest, ha,
        find?_applyUpd_self (upd a) (hf a) q st,
        List.find?_cons_of_pos _ (by simp [ha])]
    · show (procSource upd (applyUpd (upd a) a.pos_id st) rest).find? _ = _
      rw [ih _ hndrest, find?_applyUpd_other (upd a) (hf a) a.pos_id q
        (fun hc => ha hc.symm), List.find?_cons_of_neg _ (by simp [ha])]

theorem provUpd_pos_id (a : SourceAlert) (c : ConsolidatedAlert) :
    (provUpd a c).pos_id = c.pos_id := rfl

theorem gastoUpd_pos_id (a : SourceAlert) (c : ConsolidatedAlert) :
    (gastoUpd a c).pos_id = c.pos_id := rfl

theorem ordenesUpd_pos_id (a : SourceAlert) (c : ConsolidatedAlert) :
    (ordenesUpd a c).pos_id = c.pos_id := rfl

/-- The characterisation of one consolidated entry: present exactly when one
of the sources mentions the POS, with the critical and total counters
counting the sources. -/
theorem consolidateDict_find? (v s o : List SourceAlert) (q : Int)
    (hv : (v.map (fun a => a.pos_id)).Nodup)
    (hs : (s.map (fun a => a.pos_id)).Nodup)
    (ho : (o.map (fun a => a.pos_id)).Nodup) :
    (consolidateDict v s o).find? (fun c => c.pos_id == q) =
      if (v.find? (fun a => a.pos_id == q)).isSome ∨
          (s.find? (fun a => a.pos_id == q)).isSome ∨
          (o.find? (fun a => a.pos_id == q)).isSome then
        some
          { pos_id := q
            alertas_criticas := critSources v s o q
            total_alertas := totalSources v s o q
            alerta_proveedores := v.find? (fun a => a.pos_id == q)
            alerta_gasto := s.find? (fun a => a.pos_id == q)
            alerta_ordenes := o.find? (fun a => a.pos_id == q) }
      else none := by
  unfold consolidateDict
  rw [find?_procSource ordenesUpd ordenesUpd_pos_id q o _ ho,
    find?_procSource gastoUpd gastoUpd_pos_id q s _ hs,
    find?_procSource provUpd provUpd_pos_id q v _ hv]
  rcases hvf : v.find? (fun a => a.pos_id == q) with _ | av <;>
    rcases hsf : s.find? (fun a => a.pos_id == q) with _ | as <;>
    rcases hof : o.find? (fun a => a.pos_id == q) with _ | ao <;>
    simp [critSources, totalSources, hvf, hsf, hof, provUpd, gastoUpd,
      ordenesUpd, blankConsolidated, List.find?]

/-- The POS ids of the consolidation dict are distinct. -/
theorem procSource_nodup
    (upd : SourceAlert → ConsolidatedAlert → ConsolidatedAlert)
    (hf : ∀ a c, (upd a c).pos_id = c.pos_id)
    (alerts : List SourceAlert) (st : List ConsolidatedAlert)
    (h : (st.map (fun c => c.pos_id)).Nodup) :
    ((procSource upd st alerts).map (fun c => c.pos_id)).Nodup := by
  induction alerts generalizing st with
  | nil => exact h
  | cons a rest ih =>
    show ((procSource upd (applyUpd (upd a) a.pos_id st) rest).map
      (fun c => c.pos_id)).Nodup
    refine ih _ ?_
    rw [applyUpd_pos_id (upd a) (hf a) a.pos_id st]
    by_cases hm : a.pos_id ∈ st.map (fun c => c.pos_id)
    · simpa [hm] using h
    · rw [if_neg hm]
      refine List.Nodup.append h (List.nodup_singleton _) ?_
      intro x hx hx2
      rw [List.mem_singleton] at hx2
      exact hm (hx2 ▸ hx)

theorem consolidateDict_nodup (v s o : List SourceAlert) :
    ((consolidateDict v s o).map (fun c => c.pos_id)).Nodup := by
  unfold consolidateDict
  exact procSource_nodup ordenesUpd ordenesUpd_pos_id o _
    (procSource_nodup gastoUpd gastoUpd_pos_id s _
      (procSource_nodup provUpd provUpd_pos_id v _ (by simp)))

/-- With distinct keys, `find?` at a member's key returns the member. -/
theorem find?_of_mem_nodup (l : List ConsolidatedAlert)
    (hnd : (l.map (fun c => c.pos_id)).Nodup) (r : ConsolidatedAlert)
    (hr : r ∈ l) : l.find? (fun c => c.pos_id == r.pos_id) = some r := by
  induction l with
  | nil => cases hr
  | cons c rest ih =>
    rw [List.map_cons] at hnd
    rcases List.nodup_cons.mp hnd with ⟨hnotin, hndrest⟩
    rcases List.mem_cons.mp hr with h | h
    · rw [h, List.find?_cons_of_pos _ (by simp)]
    · have hne : c.pos_id ≠ r.pos_id := by
        intro he
        exact hnotin (he ▸ List.mem_map_of_mem (fun x => x.pos_id) h)
      rw [List.find?_cons_of_neg _ (by simp [hne]), ih hndrest h]

theorem gravLt_iff (a b : ℕ × ℕ) :
    gravLt a b = true ↔ (a.1 < b.1 ∨ (a.1 = b.1 ∧ a.2 < b.2)) := by
  simp [gravLt]

theorem gravLt_asymm (a b : ℕ × ℕ) (h : gravLt a b = true) :
    gravLt b a = false := by
  rw [gravLt_iff] at h
  rw [Bool.eq_false_iff, Ne, gravLt_iff]
  omega

theorem gravLt_neg_trans (a b c : ℕ × ℕ) (h1 : gravLt a b = false)
    (h2 : gravLt b c = false) : gravLt a c = false := by
  rw [Bool.eq_false_iff, Ne, gravLt_iff] at h1 h2 ⊢
  omega

theorem critSources_le_totalSources (v s o : List SourceAlert) (q : Int) :
    critSources v s o q ≤ totalSources v s o q := by
  have h : ∀ (x : Option SourceAlert),
      (if x.any isCritico then 1 else 0) ≤ (if x.isSome then (1:ℕ) else 0) := by
    intro x
    cases x with
    | none => simp
    | some a =>
      simp only [Option.any_some, Option.isSome_some, if_true]
      split <;> omega
  exact Nat.add_le_add (Nat.add_le_add (h _) (h _)) (h _)

theorem totalSources_le_three (v s o : List SourceAlert) (q : Int) :
    totalSources v s o q ≤ 3 := by
  unfold totalSources
  split_ifs <;> omega

/-- C2: one record per POS with at least one alert, `alertas_criticas`
counts the critical sources (0–3), the output is sorted by
`(alertas_criticas, total_alertas)` descending, and ties keep the pre-sort
dict order (stable sort characterised by key-filter invariance). -/
theorem consolidate_all_alerts_spec (v s o : List SourceAlert)
    (hv : (v.map (fun a => a.pos_id)).Nodup)
    (hs : (s.map (fun a => a.pos_id)).Nodup)
    (ho : (o.map (fun a => a.pos_id)).Nodup) :
    ((consolidate_all_alerts v s o).map (fun c => c.pos_id)).Nodup ∧
    (∀ q : Int, q ∈ (consolidate_all_alerts v s o).map (fun c => c.pos_id) ↔
      ((∃ a ∈ v, a.pos_id = q) ∨ (∃ a ∈ s, a.pos_id = q) ∨
        (∃ a ∈ o, a.pos_id = q))) ∧
    (∀ r ∈ consolidate_all_alerts v s o,
      r.alertas_criticas = critSources v s o r.pos_id ∧
      r.total_alertas = totalSources v s o r.pos_id ∧
      1 ≤ r.total_alertas ∧ r.alertas_criticas ≤ 3 ∧
      r.alertas_criticas ≤ r.total_alertas) ∧
    (consolidate_all_alerts v s o).Pairwise
      (fun x y => gravLt (gravKey x) (gravKey y) = false) ∧
    (∀ k : ℕ × ℕ, (consolidate_all_alerts v s o).filter
        (fun r => gravKey r == k) =
      (consolidateDict v s o).filter (fun r => gravKey r == k)) := by
  have hperm : (consolidate_all_alerts v s o).Perm (consolidateDict v s o) :=
    sortK_perm gravKey gravLt _
  have hfind := fun q => consolidateDict_find? v s o q hv hs ho
  have hsome : ∀ (l : List SourceAlert) (q : Int),
      (l.find? (fun a => a.pos_id == q)).isSome ↔ ∃ a ∈ l, a.pos_id = q := by
    intro l q
    rw [List.find?_isSome]
    simp
  refine ⟨?_, ?_, ?_, ?_, ?_⟩
  · exact ((hperm.map (fun c => c.pos_id)).nodup_iff).mpr
      (consolidateDict_nodup v s o)
  · intro q
    rw [(hperm.map (fun c => c.pos_id)).mem_iff, List.mem_map]
    constructor
    · rintro ⟨c, hc, hcq⟩
      have hf := find?_of_mem_nodup _ (consolidateDict_nodup v s o) c hc
      rw [hcq, hfind q] at hf
      by_cases hcond : ((v.find? (fun a => a.pos_id == q)).isSome ∨
          (s.find? (fun a => a.pos_id == q)).isSome ∨
          (o.find? (fun a => a.pos_id == q)).isSome)
      · rcases hcond with h | h | h
        · exact Or.inl ((hsome v q).mp h)
        · exact Or.inr (Or.inl ((hsome s q).mp h))
        · exact Or.inr (Or.inr ((hsome o q).mp h))
      · rw [if_neg hcond] at hf
        cases hf
    · intro h
      have hcond : ((v.find? (fun a => a.pos_id == q)).isSome ∨
          (s.find? (fun a => a.pos_id == q)).isSome ∨
          (o.find? (fun a => a.pos_id == q)).isSome) := by
        rcases h with h | h | h
        · exact Or.inl ((hsome v q).mpr h)
        · exact Or.inr (Or.inl ((hsome s q).mpr h))
        · exact Or.inr (Or.inr ((hsome o q).mpr h))
      refine ⟨{ pos_id := q
                alertas_criticas := critSources v s o q
                total_alertas := totalSources v s o q
                alerta_proveedores := v.find? (fun a => a.pos_id == q)
                alerta_gasto := s.find? (fun a => a.pos_id == q)
                alerta_ordenes := o.find? (fun a => a.pos_id == q) }, ?_, rfl⟩
      have hf := hfind q
      rw [if_pos hcond] at hf
      exact List.mem_of_find?_eq_some hf
  · intro r hr
    have hrd : r ∈ consolidateDict v s o := (hperm.mem_iff).mp hr
    have hf := find?_of_mem_nodup _ (consolidateDict_nodup v s o) r hrd
    rw [hfind r.pos_id] at hf
    by_cases hcond : ((v.find? (fun a => a.pos_id == r.pos_id)).isSome ∨
        (s.find? (fun a => a.pos_id == r.pos_id)).isSome ∨
        (o.find? (fun a => a.pos_id == r.pos_id)).isSome)
    · rw [if_pos hcond] at hf
      have hcrit : r.alertas_criticas = critSources v s o r.pos_id := by
        have h2 := congrArg ConsolidatedAlert.alertas_criticas
          (Option.some_injective _ hf)
        simpa using h2.symm
      have htot : r.total_alertas = totalSources v s o r.pos_id := by
        have h2 := congrArg ConsolidatedAlert.total_alertas
          (Option.some_injective _ hf)
        simpa using h2.symm
      have hone : 1 ≤ totalSources v s o r.pos_id := by
        unfold totalSources
        rcases hcond with h | h | h <;> rw [if_pos h] <;> omega
      refine ⟨hcrit, htot, htot ▸ hone, ?_, ?_⟩
      · rw [hcrit]
        exact le_trans (critSources_le_totalSources v s o r.pos_id)
          (totalSources_le_three v s o r.pos_id)
      · rw [hcrit, htot]
        exact critSources_le_totalSources v s o r.pos_id
    · rw [if_neg hcond] at hf
      cases hf
  · exact sortK_pairwise gravKey gravLt gravLt_asymm gravLt_neg_trans _
  · intro k
    refine sortK_filter gravKey gravLt _ ?_ _
    intro a b ha hb
    have ha2 : gravKey a = k := by simpa using ha
    have hb2 : gravKey b = k := by simpa using hb
    rw [ha2, hb2, Bool.eq_false_iff, Ne, gravLt_iff]
    omega

/-- Witness for C2: on concrete alert lists, POS 1 (2 critical, 2 total)
ranks above POS 2 (1 critical, 3 total), which ranks above POS 3
(0 critical, 1 total); the sortedness conjunct is obtained from the
consolidator theorem. -/
theorem consolidate_all_alerts_spec_witness :
    ((exV.map (fun a => a.pos_id)).Nodup ∧
      (exS.map (fun a => a.pos_id)).Nodup ∧
      (exO.map (fun a => a.pos_id)).Nodup) ∧
    (consolidate_all_alerts exV exS exO).Pairwise
      (fun x y => gravLt (gravKey x) (gravKey y) = false) ∧
    (consolidate_all_alerts exV exS exO).map gravKey =
      [(2, 2), (1, 3), (0, 1)] ∧
    (consolidate_all_alerts exV exS exO).map (fun c => c.pos_id) = [1, 2, 3] :=
  ⟨⟨by decide, by decide, by decide⟩,
    (consolidate_all_alerts_spec exV exS exO (by decide) (by decide)
      (by decide)).2.2.2.1,
    by decide, by decide⟩

/-! ## C1: the churn risk scorer is a step function of the criteria count -/

theorem label_ne_1 : MIN_TIME_LABEL ≠ LOW_PLATFORM_USE_LABEL := by decide

theorem label_ne_2 : MIN_TIME_LABEL ≠ RISKY_TREND_LABEL := by decide

theorem label_ne_3 : LOW_PLATFORM_USE_LABEL ≠ RISKY_TREND_LABEL := by decide

/-- C1: every alert built by the feature engineer matches at least one
criterion, and the scorer maps it to exactly the step values of its number
of true criteria; an alert matching zero criteria takes the defensive
fallback `0.25 / "low" / 0.60`. -/
theorem churn_scorer_step_function :
    (∀ (tI : Int → Option String) (ts : List TrialEntry) (a : FeatureAlert),
      a ∈ build_alerts tI ts →
        1 ≤ trueCriteria a ∧
        heuristic_assessment a =
          ⟨a.point_of_sale_id, stepTier (trueCriteria a),
            stepScore (trueCriteria a), stepConfidence (trueCriteria a)⟩) ∧
    (∀ a : FeatureAlert, criteriaCount a = 0 →
      heuristic_assessment a =
        ⟨a.point_of_sale_id, "low", 25/100, 60/100⟩) := by
  constructor
  · intro tI ts a ha
    rcases List.mem_filterMap.mp ha with ⟨t, ht, hsome⟩
    simp only at hsome
    by_cases hr : buildReasons tI t = []
    · rw [if_pos hr] at hsome
      cases hsome
    · rw [if_neg hr] at hsome
      have ha2 := Option.some_injective _ hsome
      subst ha2
      by_cases h1 : t.time_saved = "minimum" <;>
        by_cases h2 : t.platform_use = "low" <;>
        by_cases h3 : strLower ((tI t.point_of_sale_id).getD "") ∈
          ["inactive", "risky"] <;>
        simp [trueCriteria, criteriaCount, heuristic_assessment, buildReasons,
          h1, h2, h3, stepTier, stepScore, stepConfidence,
          label_ne_1, label_ne_2, label_ne_3, label_ne_1.symm,
          label_ne_2.symm, label_ne_3.symm] <;>
        simp [buildReasons, h1, h2, h3] at hr
  · intro a h
    simp [heuristic_assessment, h]

/-- Witness for C1: a trial entry matching all three criteria yields the
exact step values `1.00 / "extreme" / 0.95`. -/
theorem churn_scorer_step_function_witness :
    (alertEx ∈ build_alerts trendIndexEx trialsEx) ∧
    1 ≤ trueCriteria alertEx ∧
    heuristic_assessment alertEx =
      ⟨alertEx.point_of_sale_id, stepTier (trueCriteria alertEx),
        stepScore (trueCriteria alertEx), stepConfidence (trueCriteria alertEx)⟩ :=
  ⟨by decide,
    churn_scorer_step_function.1 trendIndexEx trialsEx alertEx (by decide)⟩

/-! ## C3: the MONITOR branch of the vendor-risk chain -/

/-- C3 counterexample: POS 1 with 3 vendors in the earliest week and 2 in
the latest week at 72% / 28% (gap 44 ≤ 50, leading share 72 > 70): the
CONCENTRATION rule does not fire, but the detector returns no alert at all
instead of MONITOR / MODERATE, because the MONITOR branch is an `elif`
shadowed by the 3-to-2 branch. -/
theorem analyze_vendor_risk_monitor_cex :
    numVendorsFirst cexMonitorWd 1 = 3 ∧
    numVendorsLast cexMonitorWd 1 = 2 ∧
    topPct cexMonitorWd 1 - secondPct cexMonitorWd 1 ≤ 50 ∧
    70 < topPct cexMonitorWd 1 ∧
    analyze_vendor_risk cexMonitorWd 1 =
      some ⟨1, 3, 2, none, "🟢 BAJO", 0, 1⟩ := by
  norm_num [analyze_vendor_risk, posWeekly, numVendorsFirst, numVendorsLast,
    firstWeekData, lastWeekData, firstWeek, lastWeek, listMinD, listMaxD,
    vendorAlertPair, topPct, secondPct, lastWeekVendors, sortK, insertK,
    cexMonitorWd, List.filter_cons, List.dedup_cons_of_not_mem,
    List.dedup_cons_of_mem]

/-- C3 amended: the detector returns MONITOR / MODERATE when the latest week
has exactly 2 vendors, the earliest week had fewer than 3 vendors (so the
CONCENTRATION branch was not entered), and the leading share exceeds 70%. -/
theorem analyze_vendor_risk_monitor (wd : List WeeklyRow) (pos : Int)
    (r : VendorRiskResult) (hr : analyze_vendor_risk wd pos = some r)
    (h1 : numVendorsFirst wd pos < 3) (h2 : numVendorsLast wd pos = 2)
    (h3 : 70 < topPct wd pos) :
    r.alert_type = some "MONITOREAR" ∧ r.risk_level = "🟡 MODERADO" := by
  unfold analyze_vendor_risk at hr
  by_cases he : (posWeekly wd pos).isEmpty
  · rw [if_pos he] at hr
    cases hr
  · rw [if_neg he] at hr
    have hrec := Option.some_injective _ hr
    rw [← hrec]
    have hpair : vendorAlertPair wd pos = (some "MONITOREAR", "🟡 MODERADO") := by
      unfold vendorAlertPair
      rw [if_neg (by omega : ¬ numVendorsLast wd pos = 1),
        if_neg (by omega : ¬ (3 ≤ numVendorsFirst wd pos ∧
          numVendorsLast wd pos = 2)),
        if_pos h2, if_pos h3]
    simp [hpair]

/-- Witness for the amended C3: earliest week with 2 vendors, latest week
with 2 vendors at 80% / 20% yields MONITOR / MODERATE. -/
theorem analyze_vendor_risk_monitor_witness :
    analyze_vendor_risk monWitnessWd 1 =
      some ⟨1, 2, 2, some "MONITOREAR", "🟡 MODERADO", 0, 1⟩ ∧
    numVendorsFirst monWitnessWd 1 < 3 ∧
    numVendorsLast monWitnessWd 1 = 2 ∧
    70 < topPct monWitnessWd 1 ∧
    (some "MONITOREAR" : Option String) = some "MONITOREAR" ∧
    "🟡 MODERADO" = "🟡 MODERADO" := by
  have heval : analyze_vendor_risk monWitnessWd 1 =
      some ⟨1, 2, 2, some "MONITOREAR", "🟡 MODERADO", 0, 1⟩ := by
    norm_num [analyze_vendor_risk, posWeekly, numVendorsFirst, numVendorsLast,
      firstWeekData, lastWeekData, firstWeek, lastWeek, listMinD, listMaxD,
      vendorAlertPair, topPct, secondPct, lastWeekVendors, sortK, insertK,
      monWitnessWd, List.filter_cons, List.dedup_cons_of_not_mem,
      List.dedup_cons_of_mem]
  have h1 : numVendorsFirst monWitnessWd 1 < 3 := by
    norm_num [numVendorsFirst, firstWeekData, posWeekly, firstWeek, listMinD,
      monWitnessWd, List.filter_cons, List.dedup_cons_of_not_mem,
      List.dedup_cons_of_mem]
  have h2 : numVendorsLast monWitnessWd 1 = 2 := by
    norm_num [numVendorsLast, lastWeekData, posWeekly, lastWeek, listMaxD,
      monWitnessWd, List.filter_cons, List.dedup_cons_of_not_mem,
      List.dedup_cons_of_mem]
  have h3 : (70:ℚ) < topPct monWitnessWd 1 := by
    norm_num [topPct, lastWeekVendors, lastWeekData, posWeekly, lastWeek,
      listMaxD, monWitnessWd, List.filter_cons, sortK, insertK]
  exact ⟨heval, h1, h2, h3,
    (analyze_vendor_risk_monitor monWitnessWd 1 _ heval h1 h2 h3).1,
    (analyze_vendor_risk_monitor monWitnessWd 1 _ heval h1 h2 h3).2⟩

/-! ## C10: no minimum-history requirement; a single week with a single
vendor is a MONOPOLY -/

theorem dedup_const_singleton {α : Type} [DecidableEq α] (l : List α) (c : α)
    (hne : l ≠ []) (hall : ∀ x ∈ l, x = c) : l.dedup = [c] := by
  induction l with
  | nil => exact absurd rfl hne
  | cons a t ih =>
    have ha : a = c := hall a (List.mem_cons_self a t)
    by_cases ht : t = []
    · subst ht
      simp [List.dedup_cons_of_not_mem, ha]
    · have hdt : t.dedup = [c] :=
        ih ht (fun x hx => hall x (List.mem_cons_of_mem a hx))
      have hmem : a ∈ t := by
        rcases List.exists_mem_of_ne_nil t ht with ⟨y, hy⟩
        have := hall y (List.mem_cons_of_mem a hy)
        rw [ha, ← this]
        exact hy
      rw [List.dedup_cons_of_mem hmem, hdt]

/-- C10: the vendor-concentration analyzer produces an assessment for every
POS with at least one weekly row (no minimum-history requirement), and a POS
whose rows all share one week and one vendor is flagged MONOPOLY/CRITICAL
with that week as both first and last bucket. -/
theorem analyze_vendor_risk_single_week :
    (∀ (wd : List WeeklyRow) (pos : Int), posWeekly wd pos ≠ [] →
      (analyze_vendor_risk wd pos).isSome) ∧
    (∀ (wd : List WeeklyRow) (pos w vid : Int), posWeekly wd pos ≠ [] →
      (∀ x ∈ posWeekly wd pos, x.week = w) →
      (∀ x ∈ posWeekly wd pos, x.vendor_id = vid) →
      analyze_vendor_risk wd pos =
        some
          { pos_id := pos
            num_vendors_first := 1
            num_vendors_last := 1
            alert_type := some "MONOPOLIO"
            risk_level := "🔴 CRITICO"
            first_week := w
            last_week := w }) := by
  constructor
  · intro wd pos hne
    rw [analyze_vendor_risk, if_neg (by simpa [List.isEmpty_iff] using hne)]
    rfl
  · intro wd pos w vid hne hw hv
    have hwmap : ∀ y ∈ (posWeekly wd pos).map (fun r => r.week), y = w := by
      intro y hy
      rcases List.mem_map.mp hy with ⟨x, hx, hxy⟩
      rw [← hxy]
      exact hw x hx
    have hmapne : (posWeekly wd pos).map (fun r => r.week) ≠ [] := by
      simpa using hne
    have hfw : firstWeek wd pos = w := by
      have hmem := listMinD_mem 0 _ hmapne
      exact hwmap _ (by simpa [firstWeek] using hmem)
    have hlw : lastWeek wd pos = w := by
      have hmem := listMaxD_mem 0 _ hmapne
      exact hwmap _ (by simpa [lastWeek] using hmem)
    have hfd : firstWeekData wd pos = posWeekly wd pos := by
      unfold firstWeekData
      rw [List.filter_eq_self]
      intro x hx
      simp [hw x hx, hfw]
    have hld : lastWeekData wd pos = posWeekly wd pos := by
      unfold lastWeekData
      rw [List.filter_eq_self]
      intro x hx
      simp [hw x hx, hlw]
    have hvd : ((posWeekly wd pos).map (fun r => r.vendor_id)).dedup = [vid] := by
      refine dedup_const_singleton _ vid (by simpa using hne) ?_
      intro y hy
      rcases List.mem_map.mp hy with ⟨x, hx, hxy⟩
      rw [← hxy]
      exact hv x hx
    have hnf : numVendorsFirst wd pos = 1 := by
      rw [numVendorsFirst, hfd, hvd]
      rfl
    have hnl : numVendorsLast wd pos = 1 := by
      rw [numVendorsLast, hld, hvd]
      rfl
    have hpair : vendorAlertPair wd pos = (some "MONOPOLIO", "🔴 CRITICO") := by
      rw [vendorAlertPair, if_pos hnl]
    rw [analyze_vendor_risk, if_neg (by simpa [List.isEmpty_iff] using hne)]
    simp [hpair, hnf, hnl, hfw, hlw]

/-- Witness for C10: the single-row distribution `monoWd` (one week, one
vendor) yields MONOPOLY/CRITICAL with first = last week. -/
theorem analyze_vendor_risk_single_week_witness :
    (analyze_vendor_risk monoWd 1).isSome ∧
    analyze_vendor_risk monoWd 1 =
      some
        { pos_id := 1
          num_vendors_first := 1
          num_vendors_last := 1
          alert_type := some "MONOPOLIO"
          risk_level := "🔴 CRITICO"
          first_week := 5
          last_week := 5 } :=
  ⟨analyze_vendor_risk_single_week.1 monoWd 1 (by decide),
    analyze_vendor_risk_single_week.2 monoWd 1 5 10 (by decide)
      (by decide) (by decide)⟩

/-! ## C4: the spend-decline detector -/

theorem periodStarts_step (cur stop : Int) (h : cur < stop) :
    periodStarts cur stop = cur :: periodStarts (cur + 7) stop := by
  rw [periodStarts, if_pos h]

theorem periodStarts_stop (cur stop : Int) (h : ¬ cur < stop) :
    periodStarts cur stop = [] := by
  rw [periodStarts, if_neg h]

theorem trendAlertPair_cases (zn cn mn : String) (lastV avg : ℚ) :
    (lastV = 0 → trendAlertPair zn cn mn lastV avg = (some zn, "🔴 CRITICO")) ∧
    (lastV ≠ 0 →
      50 ≤ (if 0 < avg then (avg - lastV) / avg * 100 else 0) →
      trendAlertPair zn cn mn lastV avg = (some cn, "🟠 ALTO")) ∧
    (lastV ≠ 0 →
      30 ≤ (if 0 < avg then (avg - lastV) / avg * 100 else 0) →
      (if 0 < avg then (avg - lastV) / avg * 100 else 0) < 50 →
      trendAlertPair zn cn mn lastV avg = (some mn, "🟡 MODERADO")) ∧
    (lastV ≠ 0 →
      (if 0 < avg then (avg - lastV) / avg * 100 else 0) < 30 →
      trendAlertPair zn cn mn lastV avg = (none, "🟢 NORMAL")) := by
  unfold trendAlertPair
  by_cases hl : lastV = 0
  · refine ⟨fun _ => by rw [if_pos hl], ?_, ?_, ?_⟩ <;>
      exact fun h => absurd hl h
  · rw [if_neg hl]
    by_cases ha : 0 < avg
    · have hdec : (if 0 < avg then (avg - lastV) / avg * 100 else 0) =
        (avg - lastV) / avg * 100 := if_pos ha
      rw [hdec, if_pos (show avg > 0 from ha)]
      by_cases h50 : (avg - lastV) / avg * 100 ≥ 50
      · rw [if_pos h50]
        exact ⟨fun h => absurd h hl, fun _ _ => rfl,
          fun _ _ hlt => absurd h50 (not_le.mpr hlt),
          fun _ hlt => absurd h50 (not_le.mpr (by linarith))⟩
      · rw [if_neg h50]
        by_cases h30 : (avg - lastV) / avg * 100 ≥ 30
        · rw [if_pos h30]
          exact ⟨fun h => absurd h hl,
            fun _ h2 => absurd h2 h50,
            fun _ _ _ => rfl,
            fun _ hlt => absurd h30 (not_le.mpr hlt)⟩
        · rw [if_neg h30]
          exact ⟨fun h => absurd h hl,
            fun _ h2 => absurd h2 h50,
            fun _ h2 _ => absurd h2 h30,
            fun _ _ => rfl⟩
    · have hdec : (if 0 < avg then (avg - lastV) / avg * 100 else 0) = 0 :=
        if_neg ha
      rw [hdec, if_neg (show ¬ avg > 0 from ha)]
      refine ⟨fun h => absurd h hl, ?_, ?_, fun _ _ => rfl⟩
      · intro _ h50
        exact absurd h50 (by norm_num)
      · intro _ h30
        exact absurd h30 (by norm_num)

/-- The first historical window always holds the earliest historical
transaction, so the kept spend windows are nonempty whenever there is any
historical data. -/
theorem spendPeriodTotals_ne_nil (rows : List Txn)
    (h : histData rows ≠ []) : spendPeriodTotals rows ≠ [] := by
  intro hnil
  have hmapne : (histData rows).map (fun r => r.order_date) ≠ [] := by
    simpa using h
  have hmem := listMinD_mem 0 _ hmapne
  rcases List.mem_map.mp hmem with ⟨x, hx, hxd⟩
  have hxm : x.order_date = minHistDate rows := hxd
  have hxlt : x.order_date < last7Start rows := by
    have h2 := List.mem_filter.mp hx
    simpa using h2.2
  have hstart : minHistDate rows ∈
      periodStarts (minHistDate rows) (last7Start rows) := by
    rw [periodStarts, if_pos (by omega)]
    exact List.mem_cons_self _ _
  have hwin : x ∈ windowTxns rows (minHistDate rows) := by
    refine List.mem_filter.mpr ⟨hx, ?_⟩
    simp only [decide_eq_true_eq]
    omega
  have := List.filterMap_eq_nil.mp hnil _ hstart
  rw [if_neg (by
    simp only [List.isEmpty_iff]
    intro h0
    rw [h0] at hwin
    cases hwin)] at this
  cases this

/-- C4: the spend detector yields no assessment exactly when the POS has no
transaction before the trailing 7-day window; otherwise the record carries
the current-window total and the alert follows the fixed chain
ZERO / ≥50% / ≥30% / none on the stored decrease percentage. -/
theorem analyze_spending_trends_spec (df : List Txn) (pos : Int) :
    (analyze_spending_trends df pos = none ↔
      histData (posTxns df pos) = []) ∧
    (∀ r, analyze_spending_trends df pos = some r →
      r.last_period_value =
        ((last7Data (posTxns df pos)).map (fun t => t.total_compra)).sum ∧
      r.historical_average =
        (spendPeriodTotals (posTxns df pos)).sum /
          ((spendPeriodTotals (posTxns df pos)).length : ℚ) ∧
      r.decrease_percentage = (if 0 < r.historical_average then
        (r.historical_average - r.last_period_value) /
          r.historical_average * 100 else 0) ∧
      (r.last_period_value = 0 →
        r.alert_type = some "GASTO_CERO" ∧ r.risk_level = "🔴 CRITICO") ∧
      (r.last_period_value ≠ 0 → 50 ≤ r.decrease_percentage →
        r.alert_type = some "DISMINUCION_CRITICA" ∧
          r.risk_level = "🟠 ALTO") ∧
      (r.last_period_value ≠ 0 → 30 ≤ r.decrease_percentage →
        r.decrease_percentage < 50 →
        r.alert_type = some "DISMINUCION_MODERADA" ∧
          r.risk_level = "🟡 MODERADO") ∧
      (r.last_period_value ≠ 0 → r.decrease_percentage < 30 →
        r.alert_type = none ∧ r.risk_level = "🟢 NORMAL")) := by
  constructor
  · constructor
    · intro hnone
      by_contra hne
      have hrowsne : ¬ (posTxns df pos).isEmpty := by
        simp only [List.isEmpty_iff]
        intro h0
        exact hne (by simp [histData, h0])
      have hhist : ¬ (histData (posTxns df pos)).isEmpty := by
        simpa [List.isEmpty_iff] using hne
      have htot : ¬ (spendPeriodTotals (posTxns df pos)).isEmpty := by
        simp only [List.isEmpty_iff]
        exact spendPeriodTotals_ne_nil _ (by
          simpa [List.isEmpty_iff] using hhist)
      simp only [analyze_spending_trends, if_neg hrowsne, if_neg hhist,
        if_neg htot] at hnone
      cases hnone
    · intro hh
      simp only [analyze_spending_trends]
      by_cases hrows : (posTxns df pos).isEmpty
      · rw [if_pos hrows]
      · rw [if_neg hrows, if_pos (by simpa [List.isEmpty_iff] using hh)]
  · intro r hr
    simp only [analyze_spending_trends] at hr
    by_cases hrows : (posTxns df pos).isEmpty
    · rw [if_pos hrows] at hr
      cases hr
    · rw [if_neg hrows] at hr
      by_cases hh : (histData (posTxns df pos)).isEmpty
      · rw [if_pos hh] at hr
        cases hr
      · rw [if_neg hh] at hr
        by_cases ht : (spendPeriodTotals (posTxns df pos)).isEmpty
        · rw [if_pos ht] at hr
          cases hr
        · rw [if_neg ht] at hr
          have hrec := Option.some_injective _ hr
          rw [← hrec]
          have hcases := trendAlertPair_cases "GASTO_CERO"
            "DISMINUCION_CRITICA" "DISMINUCION_MODERADA"
            (((last7Data (posTxns df pos)).map (fun t => t.total_compra)).sum)
            ((spendPeriodTotals (posTxns df pos)).sum /
              ((spendPeriodTotals (posTxns df pos)).length : ℚ))
          refine ⟨rfl, rfl, rfl, ?_, ?_, ?_, ?_⟩
          · intro h0
            rw [hcases.1 h0]
            exact ⟨rfl, rfl⟩
          · intro h0 h50
            rw [hcases.2.1 h0 h50]
            exact ⟨rfl, rfl⟩
          · intro h0 h30 h50
            rw [hcases.2.2.1 h0 h30 h50]
            exact ⟨rfl, rfl⟩
          · intro h0 h30
            rw [hcases.2.2.2 h0 h30]
            exact ⟨rfl, rfl⟩

/-- Witness for C4: four prior windows of 1000 and a current-window total of
450 (a 55% decrease) yield CRITICAL_DECREASE / HIGH. -/
theorem analyze_spending_trends_spec_witness :
    analyze_spending_trends spendDf 1 = some spendRes ∧
    spendRes.last_period_value ≠ 0 ∧ 50 ≤ spendRes.decrease_percentage ∧
    spendRes.alert_type = some "DISMINUCION_CRITICA" ∧
    spendRes.risk_level = "🟠 ALTO" := by
  have hrows : posTxns spendDf 1 = spendDf := by
    norm_num [posTxns, spendDf, List.filter_cons]
  have hstart : last7Start spendDf = 28 := by
    norm_num [last7Start, maxDate, listMaxD, spendDf]
  have hhist : histData spendDf =
      [⟨1, 0, 1000⟩, ⟨1, 7, 1000⟩, ⟨1, 14, 1000⟩, ⟨1, 21, 1000⟩] := by
    simp only [histData, hstart]
    norm_num [spendDf, List.filter_cons]
  have hmin : minHistDate spendDf = 0 := by
    rw [minHistDate, hhist]
    norm_num [listMinD]
  have hps : periodStarts 0 28 = [0, 7, 14, 21] := by
    norm_num [periodStarts_step, periodStarts_stop]
  have hw0 : windowTxns spendDf 0 = [⟨1, 0, 1000⟩] := by
    rw [windowTxns, hhist]
    norm_num [List.filter_cons]
  have hw7 : windowTxns spendDf 7 = [⟨1, 7, 1000⟩] := by
    rw [windowTxns, hhist]
    norm_num [List.filter_cons]
  have hw14 : windowTxns spendDf 14 = [⟨1, 14, 1000⟩] := by
    rw [windowTxns, hhist]
    norm_num [List.filter_cons]
  have hw21 : windowTxns spendDf 21 = [⟨1, 21, 1000⟩] := by
    rw [windowTxns, hhist]
    norm_num [List.filter_cons]
  have htot : spendPeriodTotals spendDf = [1000, 1000, 1000, 1000] := by
    rw [spendPeriodTotals, hmin, hstart, hps]
    simp only [List.filterMap_cons, hw0, hw7, hw14, hw21]
    norm_num
  have hl7 : last7Data spendDf = [⟨1, 34, 450⟩] := by
    simp only [last7Data, hstart]
    norm_num [spendDf, List.filter_cons]
  have heval : analyze_spending_trends spendDf 1 = some spendRes := by
    simp only [analyze_spending_trends, hrows, hhist, htot, hl7]
    norm_num [trendAlertPair, spendRes, spendDf]
  have h0 : spendRes.last_period_value ≠ 0 := by norm_num [spendRes]
  have h50 : 50 ≤ spendRes.decrease_percentage := by norm_num [spendRes]
  exact ⟨heval, h0, h50,
    ((analyze_spending_trends_spec spendDf 1).2 spendRes heval).2.2.2.2.1
      h0 h50⟩

/-! ## C5: the spend and order detectors do not average over the same
window set -/

theorem filterMap_eq_map_of_some {α β : Type} (f : α → Option β) (g : α → β)
    (l : List α) (hfg : ∀ a ∈ l, f a = some (g a)) :
    l.filterMap f = l.map g := by
  induction l with
  | nil => rfl
  | cons x xs ih =>
    rw [List.filterMap_cons, hfg x (List.mem_cons_self x xs), List.map_cons,
      ih (fun a ha => hfg a (List.mem_cons_of_mem x ha))]

/-- C5 counterexample: with transactions on day 0 and day 20 only, the spend
detector averages over the single nonempty window `[0,6]` while the order
detector averages over both windows `[0,6]` and `[7,13]` — the two variants
do not use the same set of historical windows. -/
theorem trend_window_sets_cex :
    spendPeriodTotals (posTxns trendGapDf 1) = [10] ∧
    orderPeriodCounts (posTxns trendGapDf 1) = [1, 0] ∧
    (analyze_spending_trends trendGapDf 1).map (fun r => r.total_periods) =
      some 1 ∧
    (analyze_orders_trends trendGapDf 1).map (fun r => r.total_periods) =
      some 2 ∧
    (analyze_spending_trends trendGapDf 1).map
      (fun r => r.historical_average) = some 10 ∧
    (analyze_orders_trends trendGapDf 1).map
      (fun r => r.historical_average) = some (1/2) := by
  have hrows : posTxns trendGapDf 1 = trendGapDf := by
    norm_num [posTxns, trendGapDf, List.filter_cons]
  have hstart : last7Start trendGapDf = 14 := by
    norm_num [last7Start, maxDate, listMaxD, trendGapDf]
  have hhist : histData trendGapDf = [⟨1, 0, 10⟩] := by
    simp only [histData, hstart]
    norm_num [trendGapDf, List.filter_cons]
  have hmin : minHistDate trendGapDf = 0 := by
    rw [minHistDate, hhist]
    norm_num [listMinD]
  have hps : periodStarts 0 14 = [0, 7] := by
    norm_num [periodStarts_step, periodStarts_stop]
  have hw0 : windowTxns trendGapDf 0 = [⟨1, 0, 10⟩] := by
    rw [windowTxns, hhist]
    norm_num [List.filter_cons]
  have hw7 : windowTxns trendGapDf 7 = [] := by
    rw [windowTxns, hhist]
    norm_num [List.filter_cons]
  have htot : spendPeriodTotals trendGapDf = [10] := by
    rw [spendPeriodTotals, hmin, hstart, hps]
    simp only [List.filterMap_cons, hw0, hw7]
    norm_num
  have hcnt : orderPeriodCounts trendGapDf = [1, 0] := by
    rw [orderPeriodCounts, hmin, hstart, hps]
    simp only [List.map_cons, hw0, hw7]
    norm_num
  have hl7 : last7Data trendGapDf = [⟨1, 20, 5⟩] := by
    simp only [last7Data, hstart]
    norm_num [trendGapDf, List.filter_cons]
  have hspend : analyze_spending_trends trendGapDf 1 =
      some ⟨1, 5, 10, 50, some "DISMINUCION_CRITICA", "🟠 ALTO", 1⟩ := by
    simp only [analyze_spending_trends, hrows, hhist, htot, hl7]
    norm_num [trendAlertPair, trendGapDf]
  have horders : analyze_orders_trends trendGapDf 1 =
      some ⟨1, 1, 1/2, -100, none, "🟢 NORMAL", 2⟩ := by
    simp only [analyze_orders_trends, hrows, hhist, hcnt, hl7]
    norm_num [trendAlertPair, trendGapDf]
  rw [hrows, htot, hcnt, hspend, horders]
  norm_num

/-- C5 amended: both detectors cut the historical data into the same
consecutive 7-day windows from the earliest historical date; the order
variant averages over all of them while the spend variant averages only over
the nonempty ones, so the two window sets coincide exactly when every window
holds a transaction. -/
theorem trend_windows_alignment (df : List Txn) (pos : Int)
    (h : ∀ s ∈ periodStarts (minHistDate (posTxns df pos))
      (last7Start (posTxns df pos)), windowTxns (posTxns df pos) s ≠ []) :
    spendPeriodTotals (posTxns df pos) =
      (periodStarts (minHistDate (posTxns df pos))
        (last7Start (posTxns df pos))).map
        (fun s => ((windowTxns (posTxns df pos) s).map
          (fun t => t.total_compra)).sum) ∧
    orderPeriodCounts (posTxns df pos) =
      (periodStarts (minHistDate (posTxns df pos))
        (last7Start (posTxns df pos))).map
        (fun s => (windowTxns (posTxns df pos) s).length) ∧
    (spendPeriodTotals (posTxns df pos)).length =
      (orderPeriodCounts (posTxns df pos)).length := by
  have h1 : spendPeriodTotals (posTxns df pos) =
      (periodStarts (minHistDate (posTxns df pos))
        (last7Start (posTxns df pos))).map
        (fun s => ((windowTxns (posTxns df pos) s).map
          (fun t => t.total_compra)).sum) := by
    unfold spendPeriodTotals
    refine filterMap_eq_map_of_some _ _ _ ?_
    intro s hs
    rw [if_neg (by simpa [List.isEmpty_iff] using h s hs)]
  refine ⟨h1, rfl, ?_⟩
  rw [h1, orderPeriodCounts]
  simp

/-- Witness for the amended C5: with transactions on days 0, 7 and 15 every
historical window is nonempty and both detectors use the windows starting at
days 0 and 7. -/
theorem trend_windows_alignment_witness :
    (∀ s ∈ periodStarts (minHistDate (posTxns trendAlignedDf 1))
      (last7Start (posTxns trendAlignedDf 1)),
      windowTxns (posTxns trendAlignedDf 1) s ≠ []) ∧
    (spendPeriodTotals (posTxns trendAlignedDf 1)).length =
      (orderPeriodCounts (posTxns trendAlignedDf 1)).length ∧
    spendPeriodTotals (posTxns trendAlignedDf 1) = [10, 20] ∧
    orderPeriodCounts (posTxns trendAlignedDf 1) = [1, 1] := by
  have hrows : posTxns trendAlignedDf 1 = trendAlignedDf := by
    norm_num [posTxns, trendAlignedDf, List.filter_cons]
  have hstart : last7Start trendAlignedDf = 9 := by
    norm_num [last7Start, maxDate, listMaxD, trendAlignedDf]
  have hhist : histData trendAlignedDf = [⟨1, 0, 10⟩, ⟨1, 7, 20⟩] := by
    simp only [histData, hstart]
    norm_num [trendAlignedDf, List.filter_cons]
  have hmin : minHistDate trendAlignedDf = 0 := by
    rw [minHistDate, hhist]
    norm_num [listMinD]
  have hps : periodStarts 0 9 = [0, 7] := by
    norm_num [periodStarts_step, periodStarts_stop]
  have hw0 : windowTxns trendAlignedDf 0 = [⟨1, 0, 10⟩] := by
    rw [windowTxns, hhist]
    norm_num [List.filter_cons]
  have hw7 : windowTxns trendAlignedDf 7 = [⟨1, 7, 20⟩] := by
    rw [windowTxns, hhist]
    norm_num [List.filter_cons]
  have hwin : ∀ s ∈ periodStarts (minHistDate (posTxns trendAlignedDf 1))
      (last7Start (posTxns trendAlignedDf 1)),
      windowTxns (posTxns trendAlignedDf 1) s ≠ [] := by
    rw [hrows, hmin, hstart, hps]
    intro s hs
    rcases List.mem_cons.mp hs with h0 | h7
    · rw [h0, hw0]
      simp
    · rw [List.mem_singleton.mp h7, hw7]
      simp
  have htot : spendPeriodTotals trendAlignedDf = [10, 20] := by
    rw [spendPeriodTotals, hmin, hstart, hps]
    simp only [List.filterMap_cons, hw0, hw7]
    norm_num
  have hcnt : orderPeriodCounts trendAlignedDf = [1, 1] := by
    rw [orderPeriodCounts, hmin, hstart, hps]
    simp only [List.map_cons, hw0, hw7]
    norm_num
  exact ⟨hwin, (trend_windows_alignment trendAlignedDf 1 hwin).2.2,
    by rw [hrows, htot], by rw [hrows, hcnt]⟩

/-! ## C6: the line classifier -/

theorem drogMask_length (g : List ClasRow) :
    (drogMask g).length = g.length := by
  rcases g with _ | ⟨c, t⟩
  · rfl
  · simp only [drogMask, List.headD_cons]
    rcases hx : c.vendor_id_x with _ | v <;> simp only [hx] <;>
      split_ifs <;> simp_all

theorem drogMask_any (g : List ClasRow) (hne : g ≠ []) :
    (drogMask g).any id = true := by
  rcases g with _ | ⟨c, t⟩
  · exact absurd rfl hne
  · simp only [drogMask]
    split_ifs with h <;> simp_all

theorem exists_zip_snd {α β : Type} (l1 : List α) (l2 : List β)
    (P : β → Prop) (hlen : l1.length = l2.length) (h : ∃ b ∈ l2, P b) :
    ∃ p ∈ l1.zip l2, P p.2 := by
  induction l1 generalizing l2 with
  | nil =>
    rcases l2 with _ | ⟨b, t2⟩
    · rcases h with ⟨b, hb, _⟩
      cases hb
    · cases hlen
  | cons a t ih =>
    rcases l2 with _ | ⟨b, t2⟩
    · rcases h with ⟨b, hb, _⟩
      cases hb
    · rcases h with ⟨b2, hb2, hP⟩
      rcases List.mem_cons.mp hb2 with hh | hh
      · exact ⟨(a, b), List.mem_cons_self _ _, by rw [hh] at hP; exact hP⟩
      · rcases ih t2 (by simpa using hlen) ⟨b2, hh, hP⟩ with ⟨p, hp, hPp⟩
        exact ⟨p, List.mem_cons_of_mem _ hp, hPp⟩

theorem min_label_inv (pr : ClasRow × Bool) (minP : ℚ)
    (h : (if pr.2 then DROG_LABEL else
      match pr.1.precio_vendedor with
      | some q => if q = minP then MIN_LABEL else NOMIN_LABEL
      | none => NOMIN_LABEL) = MIN_LABEL) :
    pr.2 = false ∧ pr.1.precio_vendedor = some minP := by
  by_cases h2 : pr.2
  · rw [if_pos h2] at h
    exact absurd h (by decide)
  · rw [if_neg h2] at h
    rcases hp : pr.1.precio_vendedor with _ | qq
    · rw [hp] at h
      exact absurd (show NOMIN_LABEL = MIN_LABEL from h) (by decide)
    · rw [hp] at h
      have h3 : (if qq = minP then MIN_LABEL else NOMIN_LABEL) =
        MIN_LABEL := h
      by_cases hq : qq = minP
      · refine ⟨by simpa using h2, ?_⟩
        rw [hq]
      · rw [if_neg hq] at h3
        exact absurd h3 (by decide)

theorem nomin_label_snd (pr : ClasRow × Bool) (minP : ℚ)
    (h : (if pr.2 then DROG_LABEL else
      match pr.1.precio_vendedor with
      | some q => if q = minP then MIN_LABEL else NOMIN_LABEL
      | none => NOMIN_LABEL) = NOMIN_LABEL) :
    pr.2 = false := by
  by_cases h2 : pr.2
  · rw [if_pos h2] at h
    exact absurd h (by decide)
  · simpa using h2

/-- C6 amended: every nonempty group gets at least one baseline label; all
rows labelled `vendor_best_price` carry the same (minimum) parsed price, and
that price is at most the parsed price of every `vendor_other_price` row. -/
theorem clasificacion_group_spec (g : List ClasRow) (hne : g ≠ []) :
    (∃ p ∈ clasificacionGroup g, p.2 = DROG_LABEL) ∧
    (∀ p ∈ clasificacionGroup g, ∀ q ∈ clasificacionGroup g,
      p.2 = MIN_LABEL → q.2 = MIN_LABEL →
      p.1.precio_vendedor = q.1.precio_vendedor) ∧
    (∀ p ∈ clasificacionGroup g, ∀ q ∈ clasificacionGroup g,
      p.2 = MIN_LABEL → q.2 = NOMIN_LABEL →
      ∀ a b : ℚ, p.1.precio_vendedor = some a →
        q.1.precio_vendedor = some b → a ≤ b) := by
  have hlen : g.length = (drogMask g).length := (drogMask_length g).symm
  have hzip : ∃ pr ∈ g.zip (drogMask g), pr.2 = true := by
    refine exists_zip_snd g (drogMask g) (fun b => b = true) hlen ?_
    have hany := drogMask_any g hne
    rw [List.any_eq_true] at hany
    rcases hany with ⟨b, hb, hbtrue⟩
    exact ⟨b, hb, by simpa using hbtrue⟩
  simp only [clasificacionGroup]
  by_cases hv : (((g.zip (drogMask g)).filter (fun p => !p.2)).filterMap
      (fun p => p.1.precio_vendedor)).isEmpty
  · rw [if_pos hv]
    refine ⟨?_, ?_, ?_⟩
    · rcases hzip with ⟨pr, hpr, hpr2⟩
      exact ⟨(pr.1, DROG_LABEL),
        List.mem_map.mpr ⟨pr, hpr, by rw [if_pos hpr2]⟩, rfl⟩
    · intro p hp q hq hpl _
      rcases List.mem_map.mp hp with ⟨pr, _, hfp⟩
      rw [← hfp] at hpl
      simp only at hpl
      by_cases h2 : pr.2
      · rw [if_pos h2] at hpl
        exact absurd hpl (by decide)
      · rw [if_neg h2] at hpl
        exact absurd hpl (by decide)
    · intro p hp q hq hpl _
      rcases List.mem_map.mp hp with ⟨pr, _, hfp⟩
      rw [← hfp] at hpl
      simp only at hpl
      by_cases h2 : pr.2
      · rw [if_pos h2] at hpl
        exact absurd hpl (by decide)
      · rw [if_neg h2] at hpl
        exact absurd hpl (by decide)
  · rw [if_neg hv]
    refine ⟨?_, ?_, ?_⟩
    · rcases hzip with ⟨pr, hpr, hpr2⟩
      exact ⟨(pr.1, DROG_LABEL),
        List.mem_map.mpr ⟨pr, hpr, by rw [if_pos hpr2]⟩, rfl⟩
    · intro p hp q hq hpl hql
      rcases List.mem_map.mp hp with ⟨pr, _, hfp⟩
      rcases List.mem_map.mp hq with ⟨qr, _, hfq⟩
      rw [← hfp] at hpl ⊢
      rw [← hfq] at hql ⊢
      have hp2 := min_label_inv pr _ hpl
      have hq2 := min_label_inv qr _ hql
      rw [hp2.2, hq2.2]
    · intro p hp q hq hpl hql a b hpa hqb
      rcases List.mem_map.mp hp with ⟨pr, _, hfp⟩
      rcases List.mem_map.mp hq with ⟨qr, hqr, hfq⟩
      rw [← hfp] at hpl hpa
      rw [← hfq] at hql hqb
      have hp2 := min_label_inv pr _ hpl
      have hq2 := nomin_label_snd qr _ hql
      have ha : a = listMinQD 0
          (((g.zip (drogMask g)).filter (fun p => !p.2)).filterMap
            (fun p => p.1.precio_vendedor)) := by
        have hss := hp2.2
        rw [hpa] at hss
        exact Option.some_injective _ hss
      have hbmem : b ∈ ((g.zip (drogMask g)).filter
          (fun p => !p.2)).filterMap (fun p => p.1.precio_vendedor) :=
        List.mem_filterMap.mpr ⟨qr,
          List.mem_filter.mpr ⟨hqr, by rw [hq2]; rfl⟩, hqb⟩
      rw [ha]
      exact listMinQD_le 0 _ b hbmem

/-- C6 counterexample: two vendor rows tied at price 5 (plus one baseline
row) both receive the `vendor_best_price` label — the classifier does not
assign at most one best-price label per group. -/
theorem clasificacion_tie_cex :
    (clasificacionGroup tieGroup).map (fun p => p.2) =
      [DROG_LABEL, MIN_LABEL, MIN_LABEL] ∧
    ((clasificacionGroup tieGroup).filter
      (fun p => p.2 == MIN_LABEL)).length = 2 := by
  decide

/-- Witness for the amended C6: a group with a baseline row and vendor rows
priced 4 and 7 has a baseline label, and its best-price labels all sit at
price 4 ≤ 7. -/
theorem clasificacion_group_spec_witness :
    tieGroup ≠ [] ∧ classifyGroup ≠ [] ∧
    (∃ p ∈ clasificacionGroup classifyGroup, p.2 = DROG_LABEL) ∧
    (clasificacionGroup classifyGroup).map (fun p => p.2) =
      [DROG_LABEL, MIN_LABEL, NOMIN_LABEL] :=
  ⟨by decide, by decide,
    (clasificacion_group_spec classifyGroup (by decide)).1, by decide⟩

/-! ## C7: the savings analyzer -/

/-- C7: every emitted savings record has strictly positive savings, its
percentage is `savings / baseline_total × 100` (0 when the baseline is not
positive), and its tier is Low up to 10%, Medium up to 20%, High above. -/
theorem construir_analisis_productos_spec (vs : List VendorCandRow)
    (ds : List DrogRow) :
    ∀ rec ∈ construir_analisis_productos vs ds,
      0 < rec.ahorro ∧
      rec.ahorro = rec.precio_total_drogueria -
        rec.precio_total_mejor_vendor ∧
      rec.porcentaje_ahorro = (if 0 < rec.precio_total_drogueria then
        rec.ahorro / rec.precio_total_drogueria * 100 else 0) ∧
      (rec.porcentaje_ahorro ≤ 10 → rec.tipo_ahorro = "Bajo") ∧
      (10 < rec.porcentaje_ahorro → rec.porcentaje_ahorro ≤ 20 →
        rec.tipo_ahorro = "Medio") ∧
      (20 < rec.porcentaje_ahorro → rec.tipo_ahorro = "Alto") := by
  intro rec hrec
  simp only [construir_analisis_productos] at hrec
  have hrec2 := (sortK_perm (fun r : SavingsRecord => r.ahorro)
    (fun p q => decide (p < q)) _).mem_iff.mp hrec
  rcases List.mem_filterMap.mp hrec2 with ⟨pr, _, hsome⟩
  by_cases hpos : 0 < pr.2.valor_vendedor - pr.1.precio_total_vendedor.getD 0
  · rw [if_pos hpos] at hsome
    have hrr := Option.some_injective _ hsome
    rw [← hrr]
    refine ⟨hpos, rfl, rfl, ?_, ?_, ?_⟩
    · intro h10
      simp only [tipoAhorroOf]
      rw [if_pos h10]
    · intro h10 h20
      simp only [tipoAhorroOf]
      rw [if_neg (not_le.mpr h10), if_pos h20]
    · intro h20
      simp only [tipoAhorroOf]
      rw [if_neg (not_le.mpr (by linarith)), if_neg (not_le.mpr h20)]
  · rw [if_neg hpos] at hsome
    cases hsome

/-- Witness for C7: a baseline of 100 against a best vendor total of 80
yields savings 20, percentage 20 and tier Medium. -/
theorem construir_analisis_productos_spec_witness :
    construir_analisis_productos savVendors savDrogs = [savRec] ∧
    0 < savRec.ahorro ∧
    savRec.porcentaje_ahorro = (if 0 < savRec.precio_total_drogueria then
      savRec.ahorro / savRec.precio_total_drogueria * 100 else 0) ∧
    (10 < savRec.porcentaje_ahorro → savRec.porcentaje_ahorro ≤ 20 →
      savRec.tipo_ahorro = "Medio") ∧
    savRec.tipo_ahorro = "Medio" := by
  have hbest : bestVendors savVendors =
      [⟨100, 200, some 2, some 80, some 8⟩] := by decide
  have hdrog : drogLookup savDrogs (100, 200) =
      some ⟨100, 200, DROG_LABEL, 100, 10, 10⟩ := by decide
  have hopc : opcionesVendors savVendors (100, 200) = 2 := by decide
  have heval : construir_analisis_productos savVendors savDrogs = [savRec] := by
    simp only [construir_analisis_productos, hbest, List.filterMap_cons,
      List.filterMap_nil, hdrog, Option.map_some]
    norm_num [hopc, savRec, tipoAhorroOf, sortK, insertK]
  have hmem : savRec ∈ construir_analisis_productos savVendors savDrogs := by
    rw [heval]
    exact List.mem_singleton.mpr rfl
  have hspec := construir_analisis_productos_spec savVendors savDrogs
    savRec hmem
  refine ⟨heval, hspec.1, hspec.2.2.1, hspec.2.2.2.2.1, ?_⟩
  exact hspec.2.2.2.2.1 (by norm_num [savRec]) (by norm_num [savRec])

/-! ## C8: the owner grouper -/

theorem addToGroup_inv (pm : Int → Option String) (o : String)
    (a : RiskAssessment) (acc : List (String × List RiskAssessment))
    (hinv : ∀ g ∈ acc, g.1 ≠ "" ∧ g.2 ≠ [] ∧
      ∀ b ∈ g.2, pm b.point_of_sale_id = some g.1)
    (ho : o ≠ "") (ha : pm a.point_of_sale_id = some o) :
    ∀ g ∈ addToGroup o a acc, g.1 ≠ "" ∧ g.2 ≠ [] ∧
      ∀ b ∈ g.2, pm b.point_of_sale_id = some g.1 := by
  induction acc with
  | nil =>
    intro g hg
    rw [List.mem_singleton.mp hg]
    exact ⟨ho, by simp, by
      intro b hb
      rw [List.mem_singleton.mp hb]
      exact ha⟩
  | cons kl rest ih =>
    intro g hg
    rcases kl with ⟨k, l⟩
    simp only [addToGroup] at hg
    by_cases hk : k = o
    · rw [if_pos hk] at hg
      rcases List.mem_cons.mp hg with hh | hh
      · rcases hinv (k, l) (List.mem_cons_self _ _) with ⟨h1, _, h3⟩
        rw [hh]
        refine ⟨h1, by simp, ?_⟩
        intro b hb
        rcases List.mem_append.mp hb with hb2 | hb2
        · exact h3 b hb2
        · rw [List.mem_singleton.mp hb2, hk]
          exact ha
      · exact hinv g (List.mem_cons_of_mem _ hh)
    · rw [if_neg hk] at hg
      rcases List.mem_cons.mp hg with hh | hh
      · rw [hh]
        exact hinv (k, l) (List.mem_cons_self _ _)
      · exact ih (fun g2 hg2 => hinv g2 (List.mem_cons_of_mem _ hg2)) g hh

theorem groupByOwner_inv (pm : Int → Option String)
    (as : List RiskAssessment) :
    ∀ g ∈ groupByOwner pm as, g.1 ≠ "" ∧ g.2 ≠ [] ∧
      ∀ b ∈ g.2, pm b.point_of_sale_id = some g.1 := by
  have hgen : ∀ (acc : List (String × List RiskAssessment)),
      (∀ g ∈ acc, g.1 ≠ "" ∧ g.2 ≠ [] ∧
        ∀ b ∈ g.2, pm b.point_of_sale_id = some g.1) →
      ∀ g ∈ as.foldl (fun acc a =>
          match pm a.point_of_sale_id with
          | some o => if o = "" then acc else addToGroup o a acc
          | none => acc) acc,
        g.1 ≠ "" ∧ g.2 ≠ [] ∧
          ∀ b ∈ g.2, pm b.point_of_sale_id = some g.1 := by
    induction as with
    | nil => exact fun acc hacc => hacc
    | cons a t ih =>
      intro acc hacc
      rw [List.foldl_cons]
      rcases hpm : pm a.point_of_sale_id with _ | o
      · exact ih acc hacc
      · by_cases ho : o = ""
        · simp only [hpm, if_pos ho]
          exact ih acc hacc
        · simp only [hpm, if_neg ho]
          exact ih _ (addToGroup_inv pm o a acc hacc ho hpm)
  exact hgen [] (by simp)

/-- C8 amended: every owner record aggregates only POS mapped to that owner
(POS without an owner mapping appear nowhere and affect no average), its
`avg_risk_score` is the arithmetic mean of its members' scores rounded
half-even to two decimals, and the list is sorted by `avg_risk_score`
descending. -/
theorem group_by_owner_spec (pm : Int → Option String)
    (as : List RiskAssessment) :
    (∀ oa ∈ group_by_owner pm as,
      oa.owner_id ≠ "" ∧
      oa.individual_assessments ≠ [] ∧
      (∀ a ∈ oa.individual_assessments,
        pm a.point_of_sale_id = some oa.owner_id) ∧
      oa.pos_count = oa.individual_assessments.length ∧
      oa.avg_risk_score = round2
        (((oa.individual_assessments.map (fun a => a.risk_score)).sum) /
          (oa.individual_assessments.length : ℚ)) ∧
      (∀ p ∈ oa.high_risk_pos ++ oa.moderate_risk_pos ++ oa.low_risk_pos,
        ∃ a ∈ oa.individual_assessments, a.point_of_sale_id = p)) ∧
    (group_by_owner pm as).Pairwise
      (fun x y => y.avg_risk_score ≤ x.avg_risk_score) := by
  constructor
  · intro oa hoa
    have hoa2 := (sortK_perm (fun oa : OwnerRiskAssessment =>
      oa.avg_risk_score) (fun p q => decide (p < q)) _).mem_iff.mp hoa
    rcases List.mem_map.mp hoa2 with ⟨g, hg, hoag⟩
    rcases groupByOwner_inv pm as g hg with ⟨h1, h2, h3⟩
    rw [← hoag]
    refine ⟨h1, h2, h3, rfl, rfl, ?_⟩
    intro p hp
    simp only [createOwnerAssessment] at hp
    rcases List.mem_append.mp hp with hp2 | hp2
    · rcases List.mem_append.mp hp2 with hp3 | hp3
      · rcases List.mem_append.mp hp3 with hp4 | hp4 <;>
        · rcases List.mem_map.mp hp4 with ⟨a, ha, hap⟩
          exact ⟨a, (List.mem_filter.mp ha).1, hap⟩
      · rcases List.mem_map.mp hp3 with ⟨a, ha, hap⟩
        exact ⟨a, (List.mem_filter.mp ha).1, hap⟩
    · rcases List.mem_map.mp hp2 with ⟨a, ha, hap⟩
      exact ⟨a, (List.mem_filter.mp ha).1, hap⟩
  · have hpw := sortK_pairwise (fun oa : OwnerRiskAssessment =>
      oa.avg_risk_score) (fun p q => decide (p < q))
      (fun a b h => by
        simp only [decide_eq_true_eq] at h
        simpa using not_lt.mpr (le_of_lt h))
      (fun a b c h1 h2 => by
        simp only [decide_eq_false_iff_not, not_lt] at h1 h2 ⊢
        exact le_trans h2 h1)
      ((groupByOwner pm as).map (fun g => createOwnerAssessment g.1 g.2))
    exact hpw.imp (fun h => by simpa [not_lt] using h)

theorem string_eq_empty_false : (("o1" : String) = "") = False :=
  eq_false (by decide)

/-- C8 counterexample: one owner with member scores `1/2, 1/2, 1/4` gets
`avg_risk_score = 0.42`, while the arithmetic mean is `5/12 ≠ 0.42` — the
stored average is the rounded value, not the exact mean. -/
theorem owner_avg_rounded_cex :
    (group_by_owner ownerMapEx ownerAssessEx).map
      (fun oa => oa.avg_risk_score) = [21/50] ∧
    ((ownerAssessEx.map (fun a => a.risk_score)).sum /
      (ownerAssessEx.length : ℚ)) = 5/12 ∧
    (21 : ℚ)/50 ≠ 5/12 := by
  have hgrp : groupByOwner ownerMapEx ownerAssessEx =
      [("o1", ownerAssessEx)] := by
    norm_num [groupByOwner, addToGroup, ownerMapEx, ownerAssessEx,
      List.foldl, string_eq_empty_false]
  refine ⟨?_, by norm_num [ownerAssessEx], by norm_num⟩
  rw [group_by_owner, hgrp]
  simp only [List.map_cons, List.map_nil, sortK, insertK,
    createOwnerAssessment]
  norm_num [ownerAssessEx, round2]

/-- Witness for the amended C8: on the single-owner example the grouper
output carries the rounded mean and is (trivially) sorted descending. -/
theorem group_by_owner_spec_witness :
    (∀ oa ∈ group_by_owner ownerMapEx ownerAssessEx,
      oa.owner_id ≠ "" ∧ oa.individual_assessments ≠ [] ∧
      (∀ a ∈ oa.individual_assessments,
        ownerMapEx a.point_of_sale_id = some oa.owner_id)) ∧
    (group_by_owner ownerMapEx ownerAssessEx).Pairwise
      (fun x y => y.avg_risk_score ≤ x.avg_risk_score) :=
  ⟨fun oa hoa =>
    ⟨((group_by_owner_spec ownerMapEx ownerAssessEx).1 oa hoa).1,
      ((group_by_owner_spec ownerMapEx ownerAssessEx).1 oa hoa).2.1,
      ((group_by_owner_spec ownerMapEx ownerAssessEx).1 oa hoa).2.2.1⟩,
    (group_by_owner_spec ownerMapEx ownerAssessEx).2⟩

/-! ## C9: the week bucket label -/

theorem isoWeekday_bounds (d : Date) :
    1 ≤ isoWeekday d ∧ isoWeekday d ≤ 7 := by
  unfold isoWeekday
  have h1 := Int.emod_nonneg (ordinal d - 1) (by norm_num : (7:ℤ) ≠ 0)
  have h2 := Int.emod_lt_of_pos (ordinal d - 1) (by norm_num : (0:ℤ) < 7)
  omega

theorem dayOfYear_bounds (d : Date) (hd : validDate d) :
    1 ≤ dayOfYear d ∧ dayOfYear d ≤ 366 := by
  rcases d with ⟨y, m, dd⟩
  rcases hd with ⟨_, hm1, hm2, hd1, hd2⟩
  simp only at hm1 hm2 hd1 hd2 ⊢
  unfold dayOfYear
  simp only at *
  interval_cases m <;>
    (by_cases hl : isLeap y <;>
      norm_num [daysInMonth, hl, List.range_succ, List.filter_append,
        List.filter_cons, List.foldl] at hd2 ⊢ <;>
      omega)

theorem isoYearWeek_week_bounds (d : Date) (hd : validDate d) :
    1 ≤ (isoYearWeek d).2 ∧ (isoYearWeek d).2 ≤ 53 := by
  have hdoy := dayOfYear_bounds d hd
  have hwd := isoWeekday_bounds d
  unfold isoYearWeek
  by_cases h1 : ((dayOfYear d : Int) - isoWeekday d + 10) / 7 < 1
  · rw [if_pos h1]
    by_cases h2 : isoLongYear (d.year - 1) <;> simp [h2]
  · rw [if_neg h1]
    by_cases h2 : ((dayOfYear d : Int) - isoWeekday d + 10) / 7 = 53 ∧
        ¬ isoLongYear d.year
    · rw [if_pos h2]
      norm_num
    · rw [if_neg h2]
      constructor
      · simp only
        omega
      · simp only
        omega

/-- C9 amended: the bucket label is the calendar year of the date paired
with its ISO week number (a value in `1..53`); it matches the full ISO
year-week label exactly on dates whose ISO year equals the calendar year,
and differs on year-boundary dates. -/
theorem get_week_number_spec (d : Date) (hd : validDate d) :
    1 ≤ (isoYearWeek d).2 ∧ (isoYearWeek d).2 ≤ 53 ∧
    get_week_number d = weekLabel d.year (isoYearWeek d).2 ∧
    ((isoYearWeek d).1 = d.year → get_week_number d = isoWeekLabel d) := by
  refine ⟨(isoYearWeek_week_bounds d hd).1,
    (isoYearWeek_week_bounds d hd).2, rfl, ?_⟩
  intro h
  rw [get_week_number, isoWeekLabel, h]

/-- C9 counterexample: 2021-01-01 lies in ISO week 53 of ISO year 2020, but
`get_week_number` formats it with the calendar year as `"2021-W53"`, not the
ISO label `"2020-W53"`. -/
theorem get_week_number_cex :
    get_week_number ⟨2021, 1, 1⟩ = "2021-W53" ∧
    isoYearWeek ⟨2021, 1, 1⟩ = (2020, 53) ∧
    isoWeekLabel ⟨2021, 1, 1⟩ = "2020-W53" ∧
    get_week_number ⟨2021, 1, 1⟩ ≠ isoWeekLabel ⟨2021, 1, 1⟩ := by
  refine ⟨?_, ?_, ?_, ?_⟩ <;> decide

/-- Witness for the amended C9: 2026-10-12 is a valid mid-year date whose
ISO year is the calendar year, so the bucket equals the ISO label
`"2026-W42"`. -/
theorem get_week_number_spec_witness :
    validDate ⟨2026, 10, 12⟩ ∧
    1 ≤ (isoYearWeek ⟨2026, 10, 12⟩).2 ∧
    (isoYearWeek ⟨2026, 10, 12⟩).2 ≤ 53 ∧
    get_week_number ⟨2026, 10, 12⟩ =
      weekLabel (2026 : Int) (isoYearWeek ⟨2026, 10, 12⟩).2 ∧
    get_week_number ⟨2026, 10, 12⟩ = isoWeekLabel ⟨2026, 10, 12⟩ ∧
    get_week_number ⟨2026, 10, 12⟩ = "2026-W42" :=
  ⟨by unfold validDate; norm_num [daysInMonth],
    (get_week_number_spec ⟨2026, 10, 12⟩
      (by unfold validDate; norm_num [daysInMonth])).1,
    (get_week_number_spec ⟨2026, 10, 12⟩
      (by unfold validDate; norm_num [daysInMonth])).2.1,
    (get_week_number_spec ⟨2026, 10, 12⟩
      (by unfold validDate; norm_num [daysInMonth])).2.2.1,
    (get_week_number_spec ⟨2026, 10, 12⟩
      (by unfold validDate; norm_num [daysInMonth])).2.2.2 (by decide),
    by decide⟩

end ChurnSpec
